import Mathlib

/-!
# Options-to-headers translation of `document.go` (package `cosmosdb`)

A shallow embedding of the option sets of `document.go`, of their `AsHeaders`
methods and of the dispatchers that call them, followed by the properties
proved about them.

Modelling conventions

* a Go `string` is a Lean `String`; the named string types
  `IndexingDirective` and `ConsistencyLevel` are `String` as well;
* a Go `[]string` is an `Option (List String)`: `none` is the nil slice,
  `some []` a non-nil slice of length zero;
* a Go `map[string]string` is an association list with unique keys, kept in
  insertion order; the nil map is `none` of `Option HeaderMap`;
* a Go result pair `(map[string]string, error)` is the record
  `HeadersResult`, a nil error being `none`;
* a pointer to an option set is an `Option`, `none` being nil; a dispatcher
  run is the list of transport calls it makes together with its outcome,
  a return or a run-time fault.
-/

namespace Cosmosdb

/-! ## Go runtime pieces used by the translations -/

/-- A Go slice of strings: `none` is the nil slice. -/
abbrev StringSlice := Option (List String)

/-- Go `len(s)` for a slice: the nil slice has length zero. -/
def StringSlice.len : StringSlice → Nat
  | none => 0
  | some xs => xs.length

/-- The elements of a slice, the nil slice having none. -/
def StringSlice.elems : StringSlice → List String
  | none => []
  | some xs => xs

/-- A non-nil Go `map[string]string`: an association list with unique keys. -/
abbrev HeaderMap := List (String × String)

/-- Go `m[k] = v`: overwrite the entry of `k` if there is one, else add it. -/
def HeaderMap.set : HeaderMap → String → String → HeaderMap
  | [], k, v => [(k, v)]
  | (k', v') :: m, k, v =>
    if k' = k then (k', v) :: m else (k', v') :: HeaderMap.set m k v

/-- Go `v, ok := m[k]`: the value stored under `k`, if any. -/
def HeaderMap.get : HeaderMap → String → Option String
  | [], _ => none
  | (k', v') :: m, k => if k' = k then some v' else HeaderMap.get m k

/-- Lookup in a possibly nil map; reading a nil map finds nothing. -/
def lookupHeader (m : Option HeaderMap) (k : String) : Option String :=
  match m with
  | none => none
  | some hm => hm.get k

/-- Go `strconv.FormatBool`. -/
def FormatBool (b : Bool) : String :=
  if b then "true" else "false"

/-- Go `fmt.Sprintf("[\"%s\"]", s)`: the verb `%s` writes `s` verbatim. -/
def SprintfPartitionKey (s : String) : String :=
  "[\"" ++ s ++ "\"]"

/-- Go `strings.Join(elems, sep)`: no element gives the empty string, one
element gives that element, otherwise the first element is written and then,
for each further element, the separator followed by the element. -/
def Join (elems : List String) (sep : String) : String :=
  match elems with
  | [] => ""
  | [a] => a
  | a :: rest => rest.foldl (fun b s => b ++ sep ++ s) a

/-! ## Names declared outside `document.go` -/

/-- The header-name constants used by `document.go`. They are declared in
another file of the package, so the translations take them as a parameter. -/
structure HeaderNames where
  HEADER_PARTITIONKEY : String
  HEADER_UPSERT : String
  HEADER_INDEXINGDIRECTIVE : String
  HEADER_TRIGGER_PRE_INCLUDE : String
  HEADER_TRIGGER_POST_INCLUDE : String
  HEADER_IF_NONE_MATCH : String
  HEADER_CONSISTENCY_LEVEL : String
  HEADER_SESSION_TOKEN : String
  HEADER_IF_MATCH : String
  HEADER_IS_QUERY : String
  HEADER_CONTYPE : String

/-- The eleven header names, in the order of the structure's fields. -/
def HeaderNames.all (H : HeaderNames) : List String :=
  [H.HEADER_PARTITIONKEY, H.HEADER_UPSERT, H.HEADER_INDEXINGDIRECTIVE,
   H.HEADER_TRIGGER_PRE_INCLUDE, H.HEADER_TRIGGER_POST_INCLUDE,
   H.HEADER_IF_NONE_MATCH, H.HEADER_CONSISTENCY_LEVEL, H.HEADER_SESSION_TOKEN,
   H.HEADER_IF_MATCH, H.HEADER_IS_QUERY, H.HEADER_CONTYPE]

/-- The header names are pairwise distinct. -/
def HeaderNames.Distinct (H : HeaderNames) : Prop :=
  H.all.Nodup

instance (H : HeaderNames) : Decidable H.Distinct :=
  inferInstanceAs (Decidable H.all.Nodup)

/-- Modelled from the spec: the values of the header-name constants are not
in `document.go`; this instance uses the eleven names the specification lists
for the wire-level headers, and serves as a concrete set of distinct names. -/
def specHeaderNames : HeaderNames where
  HEADER_PARTITIONKEY := "partition-key"
  HEADER_UPSERT := "upsert-flag"
  HEADER_INDEXINGDIRECTIVE := "indexing-directive"
  HEADER_TRIGGER_PRE_INCLUDE := "pre-trigger-include"
  HEADER_TRIGGER_POST_INCLUDE := "post-trigger-include"
  HEADER_IF_NONE_MATCH := "if-none-match"
  HEADER_CONSISTENCY_LEVEL := "consistency-level"
  HEADER_SESSION_TOKEN := "session-token"
  HEADER_IF_MATCH := "if-match"
  HEADER_IS_QUERY := "is-query"
  HEADER_CONTYPE := "content-type"

/-- The error values the package's operations return. `ErrWrongQueryContentType`
and `ErrorNotImplemented` are the package's error variables (declared in
another file); `transport` stands for an error reported by a transport
primitive. -/
inductive Error where
  | ErrWrongQueryContentType
  | ErrorNotImplemented
  | transport (msg : String)
  deriving DecidableEq, Repr

/-- The pair `(map[string]string, error)` returned by every `AsHeaders`. -/
structure HeadersResult where
  headers : Option HeaderMap
  err : Option Error
  deriving DecidableEq, Repr

/-! ## The option sets and their translations -/

/-- Go `type CreateDocumentOptions struct`; the defaults are Go zero values. -/
structure CreateDocumentOptions where
  PartitionKeyValue : String := ""
  IsUpsert : Bool := false
  IndexingDirective : String := ""
  PreTriggersInclude : StringSlice := none
  PostTriggersInclude : StringSlice := none
  deriving DecidableEq, Repr

/-- Go `func (ops CreateDocumentOptions) AsHeaders()`. -/
def CreateDocumentOptions.AsHeaders (H : HeaderNames)
    (ops : CreateDocumentOptions) : HeadersResult :=
  let headers : HeaderMap := []
  let headers :=
    if ops.PartitionKeyValue ≠ "" then
      headers.set H.HEADER_PARTITIONKEY (SprintfPartitionKey ops.PartitionKeyValue)
    else headers
  let headers := headers.set H.HEADER_UPSERT (FormatBool ops.IsUpsert)
  let headers :=
    if ops.IndexingDirective ≠ "" then
      headers.set H.HEADER_INDEXINGDIRECTIVE ops.IndexingDirective
    else headers
  let headers :=
    if ops.PreTriggersInclude ≠ none ∧ ops.PreTriggersInclude.len > 0 then
      headers.set H.HEADER_TRIGGER_PRE_INCLUDE (Join ops.PreTriggersInclude.elems ",")
    else headers
  let headers :=
    if ops.PostTriggersInclude ≠ none ∧ ops.PostTriggersInclude.len > 0 then
      headers.set H.HEADER_TRIGGER_POST_INCLUDE (Join ops.PostTriggersInclude.elems ",")
    else headers
  ⟨some headers, none⟩

/-- Go `type GetDocumentOptions struct`; the defaults are Go zero values. -/
structure GetDocumentOptions where
  IfNoneMatch : Bool := false
  PartitionKeyValue : String := ""
  ConsistencyLevel : String := ""
  SessionToken : String := ""
  deriving DecidableEq, Repr

/-- Go `func (ops GetDocumentOptions) AsHeaders()`. -/
def GetDocumentOptions.AsHeaders (H : HeaderNames)
    (ops : GetDocumentOptions) : HeadersResult :=
  let headers : HeaderMap := []
  let headers := headers.set H.HEADER_IF_NONE_MATCH (FormatBool ops.IfNoneMatch)
  let headers :=
    if ops.PartitionKeyValue ≠ "" then
      headers.set H.HEADER_PARTITIONKEY (SprintfPartitionKey ops.PartitionKeyValue)
    else headers
  let headers :=
    if ops.ConsistencyLevel ≠ "" then
      headers.set H.HEADER_CONSISTENCY_LEVEL ops.ConsistencyLevel
    else headers
  let headers :=
    if ops.SessionToken ≠ "" then
      headers.set H.HEADER_SESSION_TOKEN ops.SessionToken
    else headers
  ⟨some headers, none⟩

/-- Go `type ReplaceDocumentOptions struct`; the defaults are Go zero values. -/
structure ReplaceDocumentOptions where
  PartitionKeyValue : String := ""
  IndexingDirective : String := ""
  PreTriggersInclude : StringSlice := none
  PostTriggersInclude : StringSlice := none
  IfMatch : String := ""
  deriving DecidableEq, Repr

/-- Go `func (ops ReplaceDocumentOptions) AsHeaders()`. -/
def ReplaceDocumentOptions.AsHeaders (H : HeaderNames)
    (ops : ReplaceDocumentOptions) : HeadersResult :=
  let headers : HeaderMap := []
  let headers :=
    if ops.PartitionKeyValue ≠ "" then
      headers.set H.HEADER_PARTITIONKEY (SprintfPartitionKey ops.PartitionKeyValue)
    else headers
  let headers :=
    if ops.IndexingDirective ≠ "" then
      headers.set H.HEADER_INDEXINGDIRECTIVE ops.IndexingDirective
    else headers
  let headers :=
    if ops.PreTriggersInclude ≠ none ∧ ops.PreTriggersInclude.len > 0 then
      headers.set H.HEADER_TRIGGER_PRE_INCLUDE (Join ops.PreTriggersInclude.elems ",")
    else headers
  let headers :=
    if ops.PostTriggersInclude ≠ none ∧ ops.PostTriggersInclude.len > 0 then
      headers.set H.HEADER_TRIGGER_POST_INCLUDE (Join ops.PostTriggersInclude.elems ",")
    else headers
  let headers :=
    if ops.IfMatch ≠ "" then
      headers.set H.HEADER_IF_MATCH ops.IfMatch
    else headers
  ⟨some headers, none⟩

/-- Go `type DeleteDocumentOptions struct`; the defaults are Go zero values. -/
structure DeleteDocumentOptions where
  PartitionKeyValue : String := ""
  PreTriggersInclude : StringSlice := none
  PostTriggersInclude : StringSlice := none
  deriving DecidableEq, Repr

/-- Go `func (ops DeleteDocumentOptions) AsHeaders()`. -/
def DeleteDocumentOptions.AsHeaders (H : HeaderNames)
    (ops : DeleteDocumentOptions) : HeadersResult :=
  let headers : HeaderMap := []
  let headers :=
    if ops.PartitionKeyValue ≠ "" then
      headers.set H.HEADER_PARTITIONKEY (SprintfPartitionKey ops.PartitionKeyValue)
    else headers
  let headers :=
    if ops.PreTriggersInclude ≠ none ∧ ops.PreTriggersInclude.len > 0 then
      headers.set H.HEADER_TRIGGER_PRE_INCLUDE (Join ops.PreTriggersInclude.elems ",")
    else headers
  let headers :=
    if ops.PostTriggersInclude ≠ none ∧ ops.PostTriggersInclude.len > 0 then
      headers.set H.HEADER_TRIGGER_POST_INCLUDE (Join ops.PostTriggersInclude.elems ",")
    else headers
  ⟨some headers, none⟩

/-- Go `type QueryDocumentsOptions struct`; the defaults are Go zero values. -/
structure QueryDocumentsOptions where
  PartitionKeyValue : String := ""
  IsQuery : Bool := false
  ContentType : String := ""
  MaxItemCount : Int := 0
  Continuation : String := ""
  EnableCrossPartition : Bool := false
  ConsistencyLevel : String := ""
  SessionToken : String := ""
  deriving DecidableEq, Repr

/-- Go `const QUERY_CONTENT_TYPE`. -/
def QUERY_CONTENT_TYPE : String := "application/query+json"

/-- Go `func DefaultQueryDocumentOptions()`. -/
def DefaultQueryDocumentOptions : QueryDocumentsOptions :=
  { IsQuery := true, ContentType := QUERY_CONTENT_TYPE }

/-- Go `func (ops QueryDocumentsOptions) AsHeaders()`. -/
def QueryDocumentsOptions.AsHeaders (H : HeaderNames)
    (ops : QueryDocumentsOptions) : HeadersResult :=
  let headers : HeaderMap := []
  let headers :=
    if ops.PartitionKeyValue ≠ "" then
      headers.set H.HEADER_PARTITIONKEY (SprintfPartitionKey ops.PartitionKeyValue)
    else headers
  let headers := headers.set H.HEADER_IS_QUERY (FormatBool ops.IsQuery)
  if ops.ContentType ≠ QUERY_CONTENT_TYPE then
    ⟨none, some Error.ErrWrongQueryContentType⟩
  else
    let headers := headers.set H.HEADER_CONTYPE ops.ContentType
    ⟨some headers, none⟩

/-! ## JSON reading of a header value (RFC 8259), used to state C4 -/

/-- JSON insignificant whitespace: space, tab, line feed, carriage return. -/
def isJSONWhitespace (c : Char) : Bool :=
  c.toNat = 32 || c.toNat = 9 || c.toNat = 10 || c.toNat = 13

/-- Value of a hexadecimal digit. -/
def hexDigitValue (c : Char) : Option Nat :=
  let n := c.toNat
  if 48 ≤ n ∧ n ≤ 57 then some (n - 48)
  else if 97 ≤ n ∧ n ≤ 102 then some (n - 87)
  else if 65 ≤ n ∧ n ≤ 70 then some (n - 55)
  else none

/-- Value of four hexadecimal digits. -/
def hex4Value (a b c d : Char) : Option Nat :=
  match hexDigitValue a, hexDigitValue b, hexDigitValue c, hexDigitValue d with
  | some x, some y, some z, some w => some (((x * 16 + y) * 16 + z) * 16 + w)
  | _, _, _, _ => none

/-- The character a one-letter JSON escape stands for. -/
def simpleEscape (c : Char) : Option Char :=
  let n := c.toNat
  if n = 34 then some (Char.ofNat 34)
  else if n = 92 then some (Char.ofNat 92)
  else if n = 47 then some (Char.ofNat 47)
  else if n = 98 then some (Char.ofNat 8)
  else if n = 102 then some (Char.ofNat 12)
  else if n = 110 then some (Char.ofNat 10)
  else if n = 114 then some (Char.ofNat 13)
  else if n = 116 then some (Char.ofNat 9)
  else none

/-- Decode the characters of a JSON string after its opening quote, up to and
including the closing quote; the result is the decoded text and the input
left after the closing quote. A `\u` escape denotes the character of its code
(a surrogate code gives U+FFFD). -/
def decodeJSONStringBody : List Char → Option (List Char × List Char)
  | [] => none
  | c :: rest =>
    if c.toNat = 34 then some ([], rest)
    else if c.toNat = 92 then
      match rest with
      | [] => none
      | e :: rest₁ =>
        if e.toNat = 117 then
          match rest₁ with
          | a :: b :: c₁ :: d :: rest₂ =>
            match hex4Value a b c₁ d with
            | none => none
            | some n =>
              let ch := if 0xD800 ≤ n ∧ n ≤ 0xDFFF then Char.ofNat 0xFFFD else Char.ofNat n
              (decodeJSONStringBody rest₂).map (fun p => (ch :: p.1, p.2))
          | _ => none
        else
          match simpleEscape e with
          | none => none
          | some ch => (decodeJSONStringBody rest₁).map (fun p => (ch :: p.1, p.2))
    else if c.toNat < 32 then none
    else (decodeJSONStringBody rest).map (fun p => (c :: p.1, p.2))

/-- Read a text as a JSON array with exactly one element, a JSON string, and
return the string it decodes to; `none` when the text is not such an array. -/
def decodeJSONSingletonStringArray (s : String) : Option String :=
  match s.data.dropWhile isJSONWhitespace with
  | [] => none
  | o :: r₁ =>
    if o.toNat ≠ 91 then none
    else
      match r₁.dropWhile isJSONWhitespace with
      | [] => none
      | q :: r₂ =>
        if q.toNat ≠ 34 then none
        else
          match decodeJSONStringBody r₂ with
          | none => none
          | some (v, r₃) =>
            match r₃.dropWhile isJSONWhitespace with
            | [] => none
            | e :: r₄ =>
              if e.toNat = 93 ∧ r₄.dropWhile isJSONWhitespace = [] then some ⟨v⟩
              else none


/-! ## Reading of "comma-joined", used to state C8 -/

/-- The names in their order, a single comma between consecutive names and
nothing before the first or after the last: `t1 ++ "," ++ ... ++ "," ++ tn`. -/
def commaSeparated : List String → String
  | [] => ""
  | [t] => t
  | t :: t' :: ts => t ++ "," ++ commaSeparated (t' :: ts)

/-! ## The dispatchers and the transport they call

The transport primitives `create`, `get`, `replace`, `delete` and `query` are
methods of `*Client` declared in another file, and the link builders
`createDocsLink` and `createDocLink` are functions declared in another file;
both are taken as parameters. A dispatcher run is described by the transport
calls it makes, in order, and by how it ends. A pointer to an option set is an
`Option`, `none` being the nil pointer. -/

/-- How a call of a dispatcher ends: it returns, or it faults at run time on
the dereference of a nil pointer. -/
inductive Outcome (α : Type) where
  | panic : Outcome α
  | returned : α → Outcome α
  deriving DecidableEq, Repr

/-- Go `type QueryDocumentsResponse struct`, declared in another file; only
the field `Documents`, the one `document.go` sets, is kept. -/
structure QueryDocumentsResponse (V : Type) where
  Documents : V
  deriving DecidableEq, Repr

/-- One call of a transport primitive, with the arguments it receives (the
pointer to the fresh `Resource` that `create` and `replace` fill is left out). -/
inductive Call (Ctx V Q : Type) where
  | create (ctx : Ctx) (link : String) (body : V) (headers : Option HeaderMap)
  | get (ctx : Ctx) (link : String) (out : V) (headers : Option HeaderMap)
  | replace (ctx : Ctx) (link : String) (body : V) (headers : Option HeaderMap)
  | delete (ctx : Ctx) (link : String) (headers : Option HeaderMap)
  | query (ctx : Ctx) (link : String) (qry : Q) (results : QueryDocumentsResponse V)
      (headers : Option HeaderMap)
  deriving DecidableEq, Repr

/-- The path a transport call is addressed to. -/
def Call.link {Ctx V Q : Type} : Call Ctx V Q → String
  | .create _ link _ _ => link
  | .get _ link _ _ => link
  | .replace _ link _ _ => link
  | .delete _ link _ => link
  | .query _ link _ _ _ => link

/-- The transport primitives of `*Client`. `create` and `replace` answer with
the resource they leave behind the `*Resource` pointer and their error,
`query` with the response it leaves behind the pointer and its error, `get`
and `delete` with their error. -/
structure Client (Ctx V Q R : Type) where
  create : Ctx → String → V → Option HeaderMap → R × Option Error
  get : Ctx → String → V → Option HeaderMap → Option Error
  replace : Ctx → String → V → Option HeaderMap → R × Option Error
  delete : Ctx → String → Option HeaderMap → Option Error
  query : Ctx → String → Q → QueryDocumentsResponse V → Option HeaderMap →
    QueryDocumentsResponse V × Option Error

/-- The link builders `createDocsLink(dbName, colName)` and
`createDocLink(dbName, colName, id)`. -/
structure LinkBuilders where
  createDocsLink : String → String → String
  createDocLink : String → String → String → String

/-- A run of a dispatcher: the transport calls made, in order, and the way
the run ends. -/
structure Run (C α : Type) where
  calls : List C
  outcome : Outcome α
  deriving DecidableEq, Repr

/-- Go `func (c *Client) CreateDocument`. -/
def CreateDocument {Ctx V Q R : Type} (H : HeaderNames) (L : LinkBuilders)
    (c : Client Ctx V Q R) (ctx : Ctx) (dbName colName : String) (doc : V)
    (ops : Option CreateDocumentOptions) :
    Run (Call Ctx V Q) (Option R × Option Error) :=
  let send := fun (headers : Option HeaderMap) =>
    let link := L.createDocsLink dbName colName
    let answer := c.create ctx link doc headers
    match answer.2 with
    | some e => (⟨[Call.create ctx link doc headers], Outcome.returned (none, some e)⟩ :
        Run (Call Ctx V Q) (Option R × Option Error))
    | none => ⟨[Call.create ctx link doc headers], Outcome.returned (some answer.1, none)⟩
  match ops with
  | some o =>
    let translated := o.AsHeaders H
    match translated.err with
    | some e => ⟨[], Outcome.returned (none, some e)⟩
    | none => send translated.headers
  | none => send (some [])

/-- Go `func (c *Client) UpsertDocument`; `O` stands for `RequestOptions`. -/
def UpsertDocument {Ctx V Q R O : Type} (_c : Client Ctx V Q R) (_ctx : Ctx)
    (_link : String) (_doc : V) (_ops : Option O) :
    Run (Call Ctx V Q) (Option Error) :=
  ⟨[], Outcome.returned (some Error.ErrorNotImplemented)⟩

/-- Go `func (c *Client) ListDocument`; `O` stands for `RequestOptions`. -/
def ListDocument {Ctx V Q R O : Type} (_c : Client Ctx V Q R) (_ctx : Ctx)
    (_link : String) (_ops : Option O) (_out : V) :
    Run (Call Ctx V Q) (Option Error) :=
  ⟨[], Outcome.returned (some Error.ErrorNotImplemented)⟩

/-- Go `func (c *Client) GetDocument`. The call `ops.AsHeaders()` has a value
receiver, so it dereferences `ops`. -/
def GetDocument {Ctx V Q R : Type} (H : HeaderNames) (L : LinkBuilders)
    (c : Client Ctx V Q R) (ctx : Ctx) (dbName colName id : String)
    (ops : Option GetDocumentOptions) (out : V) :
    Run (Call Ctx V Q) (Option Error) :=
  match ops with
  | none => ⟨[], Outcome.panic⟩
  | some o =>
    let translated := o.AsHeaders H
    match translated.err with
    | some e => ⟨[], Outcome.returned (some e)⟩
    | none =>
      let link := L.createDocLink dbName colName id
      match c.get ctx link out translated.headers with
      | some e => ⟨[Call.get ctx link out translated.headers], Outcome.returned (some e)⟩
      | none => ⟨[Call.get ctx link out translated.headers], Outcome.returned none⟩

/-- Go `func (c *Client) ReplaceDocument`. -/
def ReplaceDocument {Ctx V Q R : Type} (H : HeaderNames) (L : LinkBuilders)
    (c : Client Ctx V Q R) (ctx : Ctx) (dbName colName id : String) (doc : V)
    (ops : Option ReplaceDocumentOptions) :
    Run (Call Ctx V Q) (Option R × Option Error) :=
  let send := fun (headers : Option HeaderMap) =>
    let link := L.createDocLink dbName colName id
    let answer := c.replace ctx link doc headers
    match answer.2 with
    | some e => (⟨[Call.replace ctx link doc headers], Outcome.returned (none, some e)⟩ :
        Run (Call Ctx V Q) (Option R × Option Error))
    | none => ⟨[Call.replace ctx link doc headers], Outcome.returned (some answer.1, none)⟩
  match ops with
  | some o =>
    let translated := o.AsHeaders H
    match translated.err with
    | some e => ⟨[], Outcome.returned (none, some e)⟩
    | none => send translated.headers
  | none => send (some [])

/-- Go `func (c *Client) DeleteDocument`. The call `ops.AsHeaders()` has a
value receiver, so it dereferences `ops`. -/
def DeleteDocument {Ctx V Q R : Type} (H : HeaderNames) (L : LinkBuilders)
    (c : Client Ctx V Q R) (ctx : Ctx) (dbName colName id : String)
    (ops : Option DeleteDocumentOptions) :
    Run (Call Ctx V Q) (Option Error) :=
  match ops with
  | none => ⟨[], Outcome.panic⟩
  | some o =>
    let translated := o.AsHeaders H
    match translated.err with
    | some e => ⟨[], Outcome.returned (some e)⟩
    | none =>
      let link := L.createDocLink dbName colName id
      match c.delete ctx link translated.headers with
      | some e => ⟨[Call.delete ctx link translated.headers], Outcome.returned (some e)⟩
      | none => ⟨[Call.delete ctx link translated.headers], Outcome.returned none⟩

/-- Go `func (c *Client) QueryDocuments`. The call `ops.AsHeaders()` has a
value receiver, so it dereferences `ops`. -/
def QueryDocuments {Ctx V Q R : Type} (H : HeaderNames) (L : LinkBuilders)
    (c : Client Ctx V Q R) (ctx : Ctx) (dbName collName : String) (qry : Q) (docs : V)
    (ops : Option QueryDocumentsOptions) :
    Run (Call Ctx V Q) (Option (QueryDocumentsResponse V) × Option Error) :=
  match ops with
  | none => ⟨[], Outcome.panic⟩
  | some o =>
    let translated := o.AsHeaders H
    match translated.err with
    | some e => ⟨[], Outcome.returned (none, some e)⟩
    | none =>
      let link := L.createDocsLink dbName collName
      let results : QueryDocumentsResponse V := { Documents := docs }
      let answer := c.query ctx link qry results translated.headers
      match answer.2 with
      | some e =>
        ⟨[Call.query ctx link qry results translated.headers], Outcome.returned (none, some e)⟩
      | none =>
        ⟨[Call.query ctx link qry results translated.headers],
          Outcome.returned (some answer.1, none)⟩

/-- Go `delete(m, k)` on a map: drop the entry of `k`, if any. Used to state
the comparison of the Create and Replace translations. -/
def HeaderMap.erase : HeaderMap → String → HeaderMap
  | [], _ => []
  | (k', v') :: m, k => if k' = k then m else (k', v') :: HeaderMap.erase m k

/-- A transport double that reports no error: `create` and `replace` leave the
link in the resource, `query` leaves the response as it received it. -/
def okClient : Client Unit String String String where
  create := fun _ link _ _ => (link, none)
  get := fun _ _ _ _ => none
  replace := fun _ link _ _ => (link, none)
  delete := fun _ _ _ => none
  query := fun _ _ _ results _ => (results, none)

/-- A transport double in which every primitive reports the error `e`. -/
def failingClient (e : Error) : Client Unit String String String where
  create := fun _ _ _ _ => ("", some e)
  get := fun _ _ _ _ => some e
  replace := fun _ _ _ _ => ("", some e)
  delete := fun _ _ _ => some e
  query := fun _ _ _ results _ => (results, some e)

/-- Link builders used for concrete evaluations: the names joined by
slashes under "dbs", "colls" and "docs". -/
def sampleLinks : LinkBuilders where
  createDocsLink := fun db coll => "dbs/" ++ db ++ "/colls/" ++ coll ++ "/docs"
  createDocLink := fun db coll id => "dbs/" ++ db ++ "/colls/" ++ coll ++ "/docs/" ++ id

/-! ## Facts about the map model -/

theorem HeaderMap.get_nil (k : String) : HeaderMap.get [] k = none := rfl

/-- Reading after a write: the written key yields the written value, every
other key is unchanged. -/
theorem HeaderMap.get_set (m : HeaderMap) (k k' v : String) :
    (m.set k' v).get k = if k' = k then some v else m.get k := by
  induction m with
  | nil => simp [HeaderMap.set, HeaderMap.get]
  | cons p m ih =>
    obtain ⟨k₀, v₀⟩ := p
    by_cases h₀ : k₀ = k'
    · subst h₀
      by_cases h₁ : k₀ = k <;> simp [HeaderMap.set, HeaderMap.get, h₁]
    · by_cases h₁ : k₀ = k
      · subst h₁
        simp [HeaderMap.set, HeaderMap.get, h₀, Ne.symm h₀]
      · simp [HeaderMap.set, HeaderMap.get, h₀, h₁, ih]

/-- Distinctness read from the last name to the first, which gives every
disequality in the other orientation. -/
theorem HeaderNames.Distinct.reverse {H : HeaderNames} (hd : H.Distinct) :
    H.all.reverse.Nodup := List.nodup_reverse.mpr hd

theorem specHeaderNames_distinct : specHeaderNames.Distinct := by decide

/-! ## What each translation stores under a given key

These facts need no assumption on the header names: a later write to the same
key replaces an earlier one, so the conditions are listed last write first. -/

/-- Reading after a guarded write. -/
theorem HeaderMap.get_ite_set (c : Prop) [Decidable c] (m : HeaderMap)
    (k k' v : String) :
    (if c then m.set k' v else m).get k = if c ∧ k' = k then some v else m.get k := by
  by_cases hc : c <;> simp [hc, HeaderMap.get_set]

/-- The guard `s != nil && len(s) > 0` holds exactly for a slice that is
neither nil nor of length zero. -/
theorem StringSlice.guard_iff (s : StringSlice) :
    (s ≠ none ∧ s.len > 0) ↔ (s ≠ none ∧ s ≠ some []) := by
  rcases s with _ | (_ | ⟨a, l⟩) <;> simp [StringSlice.len]

theorem create_lookup_asHeaders (H : HeaderNames)
    (ops : CreateDocumentOptions) (k : String) :
    lookupHeader (ops.AsHeaders H).headers k =
      if (ops.PostTriggersInclude ≠ none ∧ ops.PostTriggersInclude.len > 0) ∧
          H.HEADER_TRIGGER_POST_INCLUDE = k then
        some (Join ops.PostTriggersInclude.elems ",")
      else if (ops.PreTriggersInclude ≠ none ∧ ops.PreTriggersInclude.len > 0) ∧
          H.HEADER_TRIGGER_PRE_INCLUDE = k then
        some (Join ops.PreTriggersInclude.elems ",")
      else if ops.IndexingDirective ≠ "" ∧ H.HEADER_INDEXINGDIRECTIVE = k then
        some ops.IndexingDirective
      else if H.HEADER_UPSERT = k then some (FormatBool ops.IsUpsert)
      else if ops.PartitionKeyValue ≠ "" ∧ H.HEADER_PARTITIONKEY = k then
        some (SprintfPartitionKey ops.PartitionKeyValue)
      else none := by
  simp only [CreateDocumentOptions.AsHeaders, lookupHeader, HeaderMap.get_ite_set,
    HeaderMap.get_set, HeaderMap.get_nil]

theorem get_lookup_asHeaders (H : HeaderNames)
    (ops : GetDocumentOptions) (k : String) :
    lookupHeader (ops.AsHeaders H).headers k =
      if ops.SessionToken ≠ "" ∧ H.HEADER_SESSION_TOKEN = k then some ops.SessionToken
      else if ops.ConsistencyLevel ≠ "" ∧ H.HEADER_CONSISTENCY_LEVEL = k then
        some ops.ConsistencyLevel
      else if ops.PartitionKeyValue ≠ "" ∧ H.HEADER_PARTITIONKEY = k then
        some (SprintfPartitionKey ops.PartitionKeyValue)
      else if H.HEADER_IF_NONE_MATCH = k then some (FormatBool ops.IfNoneMatch)
      else none := by
  simp only [GetDocumentOptions.AsHeaders, lookupHeader, HeaderMap.get_ite_set,
    HeaderMap.get_set, HeaderMap.get_nil]

theorem replace_lookup_asHeaders (H : HeaderNames)
    (ops : ReplaceDocumentOptions) (k : String) :
    lookupHeader (ops.AsHeaders H).headers k =
      if ops.IfMatch ≠ "" ∧ H.HEADER_IF_MATCH = k then some ops.IfMatch
      else if (ops.PostTriggersInclude ≠ none ∧ ops.PostTriggersInclude.len > 0) ∧
          H.HEADER_TRIGGER_POST_INCLUDE = k then
        some (Join ops.PostTriggersInclude.elems ",")
      else if (ops.PreTriggersInclude ≠ none ∧ ops.PreTriggersInclude.len > 0) ∧
          H.HEADER_TRIGGER_PRE_INCLUDE = k then
        some (Join ops.PreTriggersInclude.elems ",")
      else if ops.IndexingDirective ≠ "" ∧ H.HEADER_INDEXINGDIRECTIVE = k then
        some ops.IndexingDirective
      else if ops.PartitionKeyValue ≠ "" ∧ H.HEADER_PARTITIONKEY = k then
        some (SprintfPartitionKey ops.PartitionKeyValue)
      else none := by
  simp only [ReplaceDocumentOptions.AsHeaders, lookupHeader, HeaderMap.get_ite_set,
    HeaderMap.get_set, HeaderMap.get_nil]

theorem delete_lookup_asHeaders (H : HeaderNames)
    (ops : DeleteDocumentOptions) (k : String) :
    lookupHeader (ops.AsHeaders H).headers k =
      if (ops.PostTriggersInclude ≠ none ∧ ops.PostTriggersInclude.len > 0) ∧
          H.HEADER_TRIGGER_POST_INCLUDE = k then
        some (Join ops.PostTriggersInclude.elems ",")
      else if (ops.PreTriggersInclude ≠ none ∧ ops.PreTriggersInclude.len > 0) ∧
          H.HEADER_TRIGGER_PRE_INCLUDE = k then
        some (Join ops.PreTriggersInclude.elems ",")
      else if ops.PartitionKeyValue ≠ "" ∧ H.HEADER_PARTITIONKEY = k then
        some (SprintfPartitionKey ops.PartitionKeyValue)
      else none := by
  simp only [DeleteDocumentOptions.AsHeaders, lookupHeader, HeaderMap.get_ite_set,
    HeaderMap.get_set, HeaderMap.get_nil]

theorem query_lookup_asHeaders (H : HeaderNames)
    (ops : QueryDocumentsOptions) (k : String) :
    lookupHeader (ops.AsHeaders H).headers k =
      if ops.ContentType ≠ QUERY_CONTENT_TYPE then none
      else if H.HEADER_CONTYPE = k then some ops.ContentType
      else if H.HEADER_IS_QUERY = k then some (FormatBool ops.IsQuery)
      else if ops.PartitionKeyValue ≠ "" ∧ H.HEADER_PARTITIONKEY = k then
        some (SprintfPartitionKey ops.PartitionKeyValue)
      else none := by
  simp only [QueryDocumentsOptions.AsHeaders]
  by_cases hc : ops.ContentType = QUERY_CONTENT_TYPE
  · simp only [hc, ne_eq, not_true_eq_false, if_false, lookupHeader,
      HeaderMap.get_ite_set, HeaderMap.get_set, HeaderMap.get_nil]
  · simp only [hc, ne_eq, not_false_eq_true, if_true, lookupHeader]

/-! ## The query translation and its content-type check -/

/-- The query translation returns a nil error exactly when the content type
is the accepted one. -/
theorem queryAsHeaders_err_none_iff (H : HeaderNames) (ops : QueryDocumentsOptions) :
    (ops.AsHeaders H).err = none ↔ ops.ContentType = QUERY_CONTENT_TYPE := by
  unfold QueryDocumentsOptions.AsHeaders
  by_cases h : ops.ContentType = QUERY_CONTENT_TYPE <;> simp [h]

/-- C1: `QueryDocumentsOptions.AsHeaders` returns `ErrWrongQueryContentType`
exactly when `ContentType` differs from `QUERY_CONTENT_TYPE`, which is
"application/query+json"; it returns a nil error exactly when they are equal;
and whenever the error is not nil the returned mapping is nil. -/
theorem queryAsHeaders_fails_iff (H : HeaderNames) (ops : QueryDocumentsOptions) :
    ((ops.AsHeaders H).err = some Error.ErrWrongQueryContentType ↔
        ops.ContentType ≠ QUERY_CONTENT_TYPE) ∧
    ((ops.AsHeaders H).err = none ↔ ops.ContentType = QUERY_CONTENT_TYPE) ∧
    ((ops.AsHeaders H).err = none ∨ (ops.AsHeaders H).headers = none) ∧
    QUERY_CONTENT_TYPE = "application/query+json" := by
  unfold QueryDocumentsOptions.AsHeaders
  by_cases h : ops.ContentType = QUERY_CONTENT_TYPE
  · simp [h]; rfl
  · simp [h]; rfl

/-- C2: the default query options translate without error to the mapping whose
only entries are `HEADER_IS_QUERY` with value "true" and `HEADER_CONTYPE` with
value "application/query+json". -/
theorem defaultQueryOptions_asHeaders (H : HeaderNames)
    (hne : H.HEADER_IS_QUERY ≠ H.HEADER_CONTYPE) :
    (DefaultQueryDocumentOptions.AsHeaders H).err = none ∧
    (DefaultQueryDocumentOptions.AsHeaders H).headers =
      some [(H.HEADER_IS_QUERY, "true"), (H.HEADER_CONTYPE, "application/query+json")] ∧
    lookupHeader (DefaultQueryDocumentOptions.AsHeaders H).headers H.HEADER_IS_QUERY
      = some "true" ∧
    lookupHeader (DefaultQueryDocumentOptions.AsHeaders H).headers H.HEADER_CONTYPE
      = some QUERY_CONTENT_TYPE ∧
    ∀ k, k ≠ H.HEADER_IS_QUERY → k ≠ H.HEADER_CONTYPE →
      lookupHeader (DefaultQueryDocumentOptions.AsHeaders H).headers k = none := by
  have hres : DefaultQueryDocumentOptions.AsHeaders H =
      ⟨some [(H.HEADER_IS_QUERY, "true"), (H.HEADER_CONTYPE, "application/query+json")],
        none⟩ := by
    simp [QueryDocumentsOptions.AsHeaders, DefaultQueryDocumentOptions, HeaderMap.set,
      FormatBool, hne, QUERY_CONTENT_TYPE]
  rw [hres]
  refine ⟨rfl, rfl, ?_, ?_, ?_⟩
  · simp [lookupHeader, HeaderMap.get]
  · simp [lookupHeader, HeaderMap.get, hne, QUERY_CONTENT_TYPE]
  · intro k h₁ h₂
    simp [lookupHeader, HeaderMap.get, Ne.symm h₁, Ne.symm h₂]

/-- Witness of C2 on the header names of the specification. -/
theorem defaultQueryOptions_asHeaders_witness :
    specHeaderNames.HEADER_IS_QUERY ≠ specHeaderNames.HEADER_CONTYPE ∧
    DefaultQueryDocumentOptions.AsHeaders specHeaderNames =
      ⟨some [("is-query", "true"), ("content-type", "application/query+json")], none⟩ ∧
    (DefaultQueryDocumentOptions.AsHeaders specHeaderNames).err = none :=
  ⟨by decide, by decide,
    (defaultQueryOptions_asHeaders specHeaderNames (by decide)).1⟩

/-! ## Partition-key encoding -/

/-- C3: for each of the five option sets and every non-empty `v`, when
`PartitionKeyValue` is `v` and the translation succeeds, the returned mapping
holds under `HEADER_PARTITIONKEY` the string made of an opening bracket and a
double quote, `v` verbatim, and a double quote and a closing bracket. -/
theorem partitionKey_header_verbatim (H : HeaderNames) (hd : H.Distinct)
    (v : String) (hv : v ≠ "") :
    (∀ ops : CreateDocumentOptions, ops.PartitionKeyValue = v →
      (ops.AsHeaders H).err = none →
      lookupHeader (ops.AsHeaders H).headers H.HEADER_PARTITIONKEY
        = some ("[\"" ++ v ++ "\"]")) ∧
    (∀ ops : GetDocumentOptions, ops.PartitionKeyValue = v →
      (ops.AsHeaders H).err = none →
      lookupHeader (ops.AsHeaders H).headers H.HEADER_PARTITIONKEY
        = some ("[\"" ++ v ++ "\"]")) ∧
    (∀ ops : ReplaceDocumentOptions, ops.PartitionKeyValue = v →
      (ops.AsHeaders H).err = none →
      lookupHeader (ops.AsHeaders H).headers H.HEADER_PARTITIONKEY
        = some ("[\"" ++ v ++ "\"]")) ∧
    (∀ ops : DeleteDocumentOptions, ops.PartitionKeyValue = v →
      (ops.AsHeaders H).err = none →
      lookupHeader (ops.AsHeaders H).headers H.HEADER_PARTITIONKEY
        = some ("[\"" ++ v ++ "\"]")) ∧
    (∀ ops : QueryDocumentsOptions, ops.PartitionKeyValue = v →
      (ops.AsHeaders H).err = none →
      lookupHeader (ops.AsHeaders H).headers H.HEADER_PARTITIONKEY
        = some ("[\"" ++ v ++ "\"]")) := by
  have hr := hd.reverse
  simp [HeaderNames.Distinct, HeaderNames.all] at hd hr
  refine ⟨?_, ?_, ?_, ?_, ?_⟩
  · intro ops hpk _
    subst hpk
    rw [create_lookup_asHeaders]
    simp [hd, hr, hv, SprintfPartitionKey]
  · intro ops hpk _
    subst hpk
    rw [get_lookup_asHeaders]
    simp [hd, hr, hv, SprintfPartitionKey]
  · intro ops hpk _
    subst hpk
    rw [replace_lookup_asHeaders]
    simp [hd, hr, hv, SprintfPartitionKey]
  · intro ops hpk _
    subst hpk
    rw [delete_lookup_asHeaders]
    simp [hd, hr, hv, SprintfPartitionKey]
  · intro ops hpk hok
    subst hpk
    have hct : ops.ContentType = QUERY_CONTENT_TYPE :=
      ((queryAsHeaders_err_none_iff H ops).mp hok)
    rw [query_lookup_asHeaders]
    simp [hd, hr, hv, hct, SprintfPartitionKey]

/-- Witness of C3: the partition key "abc" gives the header value `["abc"]`
in each of the five translations. -/
theorem partitionKey_header_verbatim_witness :
    specHeaderNames.Distinct ∧ "abc" ≠ "" ∧
    lookupHeader (CreateDocumentOptions.AsHeaders specHeaderNames
      { PartitionKeyValue := "abc" }).headers "partition-key" = some "[\"abc\"]" ∧
    lookupHeader (GetDocumentOptions.AsHeaders specHeaderNames
      { PartitionKeyValue := "abc" }).headers "partition-key" = some "[\"abc\"]" ∧
    lookupHeader (ReplaceDocumentOptions.AsHeaders specHeaderNames
      { PartitionKeyValue := "abc" }).headers "partition-key" = some "[\"abc\"]" ∧
    lookupHeader (DeleteDocumentOptions.AsHeaders specHeaderNames
      { PartitionKeyValue := "abc" }).headers "partition-key" = some "[\"abc\"]" ∧
    lookupHeader (QueryDocumentsOptions.AsHeaders specHeaderNames
      { PartitionKeyValue := "abc", ContentType := QUERY_CONTENT_TYPE }).headers
      "partition-key" = some "[\"abc\"]" :=
  have h := partitionKey_header_verbatim specHeaderNames (by decide) "abc" (by decide)
  ⟨by decide, by decide,
    h.1 { PartitionKeyValue := "abc" } rfl rfl,
    h.2.1 { PartitionKeyValue := "abc" } rfl rfl,
    h.2.2.1 { PartitionKeyValue := "abc" } rfl rfl,
    h.2.2.2.1 { PartitionKeyValue := "abc" } rfl rfl,
    h.2.2.2.2 { PartitionKeyValue := "abc", ContentType := QUERY_CONTENT_TYPE } rfl
      (by decide)⟩

/-! ## Partition key as JSON -/

/-- Decoding a body made of plain characters (no control character, double
quote or backslash) followed by a closing quote returns those characters. -/
theorem decodeJSONStringBody_plain (v rest : List Char)
    (h : ∀ c ∈ v, 32 ≤ c.toNat ∧ c.toNat ≠ 34 ∧ c.toNat ≠ 92) :
    decodeJSONStringBody (v ++ Char.ofNat 34 :: rest) = some (v, rest) := by
  induction v with
  | nil =>
    have h34 : (Char.ofNat 34).toNat = 34 := by decide
    rw [List.nil_append, decodeJSONStringBody.eq_def]
    simp [h34]
  | cons c v ih =>
    have hc := h c (List.mem_cons_self c v)
    have hv := ih (fun d hd => h d (List.mem_cons_of_mem c hd))
    have h32 : ¬ c.toNat < 32 := by omega
    rw [List.cons_append, decodeJSONStringBody.eq_def]
    simp [hc.2.1, hc.2.2, h32, hv]

theorem SprintfPartitionKey_data (v : String) :
    (SprintfPartitionKey v).data
      = Char.ofNat 91 :: Char.ofNat 34 :: (v.data ++ [Char.ofNat 34, Char.ofNat 93]) := by
  simp [SprintfPartitionKey, String.data_append]

theorem decode_SprintfPartitionKey_plain (v : String)
    (h : ∀ c ∈ v.data, 32 ≤ c.toNat ∧ c.toNat ≠ 34 ∧ c.toNat ≠ 92) :
    decodeJSONSingletonStringArray (SprintfPartitionKey v) = some v := by
  unfold decodeJSONSingletonStringArray
  rw [SprintfPartitionKey_data]
  have h1 : isJSONWhitespace (Char.ofNat 91) = false := by decide
  have h2 : isJSONWhitespace (Char.ofNat 34) = false := by decide
  have h3 : isJSONWhitespace (Char.ofNat 93) = false := by decide
  have hb := decodeJSONStringBody_plain v.data [Char.ofNat 93] h
  simp [List.dropWhile, h1, h2, h3, hb]

/-- Supporting fact for C4: when the partition key is non-empty and has no
control character, double quote or backslash, the header value built by
`CreateDocumentOptions.AsHeaders` reads as a JSON array of one string that
decodes to the key. -/
theorem createPartitionKey_plain_is_json (H : HeaderNames) (hd : H.Distinct)
    (ops : CreateDocumentOptions) (hne : ops.PartitionKeyValue ≠ "")
    (h : ∀ c ∈ ops.PartitionKeyValue.data, 32 ≤ c.toNat ∧ c.toNat ≠ 34 ∧ c.toNat ≠ 92) :
    ∃ value, lookupHeader (ops.AsHeaders H).headers H.HEADER_PARTITIONKEY = some value ∧
      decodeJSONSingletonStringArray value = some ops.PartitionKeyValue := by
  refine ⟨SprintfPartitionKey ops.PartitionKeyValue, ?_, decode_SprintfPartitionKey_plain _ h⟩
  have hr := hd.reverse
  simp [HeaderNames.Distinct, HeaderNames.all] at hd hr
  rw [create_lookup_asHeaders]
  simp [hd, hr, hne]

/-- C4 fails on the code: for the partition key `a"b` (a, a double quote, b)
`CreateDocumentOptions.AsHeaders` stores the text `["a"b"]`, which is not a
JSON array of one string; for the key made of `a` and a backslash it stores
`["a\"]`, which is not one either; and for the key `a","b` it stores
`["a","b"]`, an array of two strings. -/
theorem createPartitionKey_quote_not_json :
    lookupHeader (CreateDocumentOptions.AsHeaders specHeaderNames
        { PartitionKeyValue := "a\"b" }).headers specHeaderNames.HEADER_PARTITIONKEY
      = some "[\"a\"b\"]" ∧
    decodeJSONSingletonStringArray "[\"a\"b\"]" = none ∧
    lookupHeader (CreateDocumentOptions.AsHeaders specHeaderNames
        { PartitionKeyValue := "a\\" }).headers specHeaderNames.HEADER_PARTITIONKEY
      = some "[\"a\\\"]" ∧
    decodeJSONSingletonStringArray "[\"a\\\"]" = none ∧
    lookupHeader (CreateDocumentOptions.AsHeaders specHeaderNames
        { PartitionKeyValue := "a\",\"b" }).headers specHeaderNames.HEADER_PARTITIONKEY
      = some "[\"a\",\"b\"]" ∧
    decodeJSONSingletonStringArray "[\"a\",\"b\"]" = none := by
  decide

/-! ## Optional and always-present headers -/

/-- C5: in the Create, Get, Replace and Delete translations each optional
header is present in the returned mapping exactly when its field is not the
zero value (for a trigger list: neither nil nor of length zero); and the
zero-valued Create options give exactly the entry `HEADER_UPSERT` = "false",
the zero-valued Get options exactly `HEADER_IF_NONE_MATCH` = "false", the
zero-valued Replace and Delete options the empty mapping. -/
theorem optional_headers_present_iff (H : HeaderNames) (hd : H.Distinct) :
    (∀ ops : CreateDocumentOptions,
      (lookupHeader (ops.AsHeaders H).headers H.HEADER_PARTITIONKEY ≠ none ↔
        ops.PartitionKeyValue ≠ "") ∧
      (lookupHeader (ops.AsHeaders H).headers H.HEADER_INDEXINGDIRECTIVE ≠ none ↔
        ops.IndexingDirective ≠ "") ∧
      (lookupHeader (ops.AsHeaders H).headers H.HEADER_TRIGGER_PRE_INCLUDE ≠ none ↔
        (ops.PreTriggersInclude ≠ none ∧ ops.PreTriggersInclude ≠ some [])) ∧
      (lookupHeader (ops.AsHeaders H).headers H.HEADER_TRIGGER_POST_INCLUDE ≠ none ↔
        (ops.PostTriggersInclude ≠ none ∧ ops.PostTriggersInclude ≠ some []))) ∧
    (∀ ops : GetDocumentOptions,
      (lookupHeader (ops.AsHeaders H).headers H.HEADER_PARTITIONKEY ≠ none ↔
        ops.PartitionKeyValue ≠ "") ∧
      (lookupHeader (ops.AsHeaders H).headers H.HEADER_CONSISTENCY_LEVEL ≠ none ↔
        ops.ConsistencyLevel ≠ "") ∧
      (lookupHeader (ops.AsHeaders H).headers H.HEADER_SESSION_TOKEN ≠ none ↔
        ops.SessionToken ≠ "")) ∧
    (∀ ops : ReplaceDocumentOptions,
      (lookupHeader (ops.AsHeaders H).headers H.HEADER_PARTITIONKEY ≠ none ↔
        ops.PartitionKeyValue ≠ "") ∧
      (lookupHeader (ops.AsHeaders H).headers H.HEADER_INDEXINGDIRECTIVE ≠ none ↔
        ops.IndexingDirective ≠ "") ∧
      (lookupHeader (ops.AsHeaders H).headers H.HEADER_TRIGGER_PRE_INCLUDE ≠ none ↔
        (ops.PreTriggersInclude ≠ none ∧ ops.PreTriggersInclude ≠ some [])) ∧
      (lookupHeader (ops.AsHeaders H).headers H.HEADER_TRIGGER_POST_INCLUDE ≠ none ↔
        (ops.PostTriggersInclude ≠ none ∧ ops.PostTriggersInclude ≠ some [])) ∧
      (lookupHeader (ops.AsHeaders H).headers H.HEADER_IF_MATCH ≠ none ↔
        ops.IfMatch ≠ "")) ∧
    (∀ ops : DeleteDocumentOptions,
      (lookupHeader (ops.AsHeaders H).headers H.HEADER_PARTITIONKEY ≠ none ↔
        ops.PartitionKeyValue ≠ "") ∧
      (lookupHeader (ops.AsHeaders H).headers H.HEADER_TRIGGER_PRE_INCLUDE ≠ none ↔
        (ops.PreTriggersInclude ≠ none ∧ ops.PreTriggersInclude ≠ some [])) ∧
      (lookupHeader (ops.AsHeaders H).headers H.HEADER_TRIGGER_POST_INCLUDE ≠ none ↔
        (ops.PostTriggersInclude ≠ none ∧ ops.PostTriggersInclude ≠ some []))) ∧
    CreateDocumentOptions.AsHeaders H {} = ⟨some [(H.HEADER_UPSERT, "false")], none⟩ ∧
    GetDocumentOptions.AsHeaders H {} = ⟨some [(H.HEADER_IF_NONE_MATCH, "false")], none⟩ ∧
    ReplaceDocumentOptions.AsHeaders H {} = ⟨some [], none⟩ ∧
    DeleteDocumentOptions.AsHeaders H {} = ⟨some [], none⟩ := by
  have hr := hd.reverse
  simp [HeaderNames.Distinct, HeaderNames.all] at hd hr
  refine ⟨?_, ?_, ?_, ?_, ?_, ?_, ?_, ?_⟩
  · intro ops
    simp only [create_lookup_asHeaders, ← StringSlice.guard_iff]
    refine ⟨?_, ?_, ?_, ?_⟩ <;> simp [hd, hr, Nat.pos_iff_ne_zero]
  · intro ops
    simp only [get_lookup_asHeaders]
    refine ⟨?_, ?_, ?_⟩ <;> simp [hd, hr, Nat.pos_iff_ne_zero]
  · intro ops
    simp only [replace_lookup_asHeaders, ← StringSlice.guard_iff]
    refine ⟨?_, ?_, ?_, ?_, ?_⟩ <;> simp [hd, hr, Nat.pos_iff_ne_zero]
  · intro ops
    simp only [delete_lookup_asHeaders, ← StringSlice.guard_iff]
    refine ⟨?_, ?_, ?_⟩ <;> simp [hd, hr, Nat.pos_iff_ne_zero]
  · simp [CreateDocumentOptions.AsHeaders, HeaderMap.set, FormatBool, StringSlice.len]
  · simp [GetDocumentOptions.AsHeaders, HeaderMap.set, FormatBool]
  · simp [ReplaceDocumentOptions.AsHeaders, StringSlice.len]
  · simp [DeleteDocumentOptions.AsHeaders, StringSlice.len]

/-- Witness of C5 on the header names of the specification: a Create value
with a partition key and an empty, non-nil list of pre-triggers has the
partition-key header and no pre-trigger header. -/
theorem optional_headers_present_iff_witness :
    specHeaderNames.Distinct ∧
    lookupHeader (CreateDocumentOptions.AsHeaders specHeaderNames
      { PartitionKeyValue := "p", PreTriggersInclude := some [] }).headers
      specHeaderNames.HEADER_PARTITIONKEY ≠ none ∧
    ¬ lookupHeader (CreateDocumentOptions.AsHeaders specHeaderNames
      { PartitionKeyValue := "p", PreTriggersInclude := some [] }).headers
      specHeaderNames.HEADER_TRIGGER_PRE_INCLUDE ≠ none ∧
    CreateDocumentOptions.AsHeaders specHeaderNames {} = ⟨some [("upsert-flag", "false")], none⟩ :=
  have h := optional_headers_present_iff specHeaderNames (by decide)
  ⟨by decide,
    ((h.1 { PartitionKeyValue := "p", PreTriggersInclude := some [] }).1).mpr (by decide),
    fun hp => absurd
      (((h.1 { PartitionKeyValue := "p", PreTriggersInclude := some [] }).2.2.1).mp hp)
      (by decide),
    h.2.2.2.2.1⟩

/-- C6: the Create translation always holds `HEADER_UPSERT`, with value "true"
when `IsUpsert` is true and "false" otherwise; the Get translation always
holds `HEADER_IF_NONE_MATCH`, with value "true" when `IfNoneMatch` is true and
"false" otherwise. -/
theorem boolean_flags_always_present (H : HeaderNames) (hd : H.Distinct) :
    (∀ ops : CreateDocumentOptions,
      lookupHeader (ops.AsHeaders H).headers H.HEADER_UPSERT
        = some (if ops.IsUpsert = true then "true" else "false")) ∧
    (∀ ops : GetDocumentOptions,
      lookupHeader (ops.AsHeaders H).headers H.HEADER_IF_NONE_MATCH
        = some (if ops.IfNoneMatch = true then "true" else "false")) := by
  have hr := hd.reverse
  simp [HeaderNames.Distinct, HeaderNames.all] at hd hr
  refine ⟨?_, ?_⟩
  · intro ops
    rw [create_lookup_asHeaders]
    simp [hd, hr, FormatBool]
  · intro ops
    rw [get_lookup_asHeaders]
    simp [hd, hr, FormatBool]

/-- Witness of C6 on the header names of the specification. -/
theorem boolean_flags_always_present_witness :
    specHeaderNames.Distinct ∧
    lookupHeader (CreateDocumentOptions.AsHeaders specHeaderNames
      { IsUpsert := true, IndexingDirective := "include" }).headers "upsert-flag"
      = some "true" ∧
    lookupHeader (GetDocumentOptions.AsHeaders specHeaderNames
      { SessionToken := "s" }).headers "if-none-match" = some "false" :=
  have h := boolean_flags_always_present specHeaderNames (by decide)
  ⟨by decide,
    h.1 { IsUpsert := true, IndexingDirective := "include" },
    h.2 { SessionToken := "s" }⟩

/-- C7 fails as stated: with `IsQuery` true and the content type "text/plain"
the translation returns the nil mapping and `ErrWrongQueryContentType`, so no
`HEADER_IS_QUERY` entry reaches the caller. -/
theorem queryAsHeaders_wrongContentType_no_isQuery :
    QueryDocumentsOptions.AsHeaders specHeaderNames
        { IsQuery := true, ContentType := "text/plain" }
      = ⟨none, some Error.ErrWrongQueryContentType⟩ ∧
    lookupHeader (QueryDocumentsOptions.AsHeaders specHeaderNames
        { IsQuery := true, ContentType := "text/plain" }).headers
      specHeaderNames.HEADER_IS_QUERY = none := by
  decide

/-- C7 as amended: when `ContentType` equals `QUERY_CONTENT_TYPE` the returned
mapping holds `HEADER_IS_QUERY`, with value "true" when `IsQuery` is true and
"false" otherwise; for any other `ContentType` no mapping is returned and the
lookup finds nothing. -/
theorem queryAsHeaders_isQuery_when_accepted (H : HeaderNames)
    (hne : H.HEADER_IS_QUERY ≠ H.HEADER_CONTYPE) (ops : QueryDocumentsOptions) :
    lookupHeader (ops.AsHeaders H).headers H.HEADER_IS_QUERY =
      if ops.ContentType = QUERY_CONTENT_TYPE then
        some (if ops.IsQuery = true then "true" else "false")
      else none := by
  rw [query_lookup_asHeaders]
  by_cases hc : ops.ContentType = QUERY_CONTENT_TYPE
  · simp [hc, Ne.symm hne, FormatBool]
  · simp [hc]

/-- Witness of the amended C7 on the header names of the specification. -/
theorem queryAsHeaders_isQuery_when_accepted_witness :
    specHeaderNames.HEADER_IS_QUERY ≠ specHeaderNames.HEADER_CONTYPE ∧
    lookupHeader (QueryDocumentsOptions.AsHeaders specHeaderNames
        { PartitionKeyValue := "p", ContentType := "application/query+json" }).headers
      "is-query" = some "false" :=
  ⟨by decide,
    queryAsHeaders_isQuery_when_accepted specHeaderNames (by decide)
      { PartitionKeyValue := "p", ContentType := "application/query+json" }⟩

/-! ## Trigger lists -/

theorem foldl_join_append (sep : String) (rest : List String) (a b : String) :
    rest.foldl (fun x s => x ++ sep ++ s) (a ++ b)
      = a ++ rest.foldl (fun x s => x ++ sep ++ s) b := by
  induction rest generalizing b with
  | nil => rfl
  | cons s rest ih =>
    simp only [List.foldl_cons]
    rw [String.append_assoc, String.append_assoc, ih, String.append_assoc]

theorem Join_cons_cons (a b : String) (rest : List String) (sep : String) :
    Join (a :: b :: rest) sep = a ++ sep ++ Join (b :: rest) sep := by
  have hb : Join (b :: rest) sep = rest.foldl (fun x s => x ++ sep ++ s) b := by
    cases rest <;> rfl
  rw [hb]
  simp only [Join, List.foldl_cons]
  rw [foldl_join_append]

/-- Go `strings.Join` with a comma writes the names in order with one comma
between consecutive names. -/
theorem Join_eq_commaSeparated (ts : List String) :
    Join ts "," = commaSeparated ts := by
  induction ts with
  | nil => rfl
  | cons a ts ih =>
    cases ts with
    | nil => rfl
    | cons b rest => rw [Join_cons_cons, ih, commaSeparated]

/-- C8: for a non-empty list of trigger names in `PreTriggersInclude`
(respectively `PostTriggersInclude`) of a Create, Replace or Delete option
set, the value stored under `HEADER_TRIGGER_PRE_INCLUDE` (respectively
`HEADER_TRIGGER_POST_INCLUDE`) is the names in their order with a single comma
between consecutive names and no separator before the first or after the
last. -/
theorem trigger_headers_comma_joined (H : HeaderNames) (hd : H.Distinct)
    (ts : List String) (hts : ts ≠ []) :
    (∀ ops : CreateDocumentOptions, ops.PreTriggersInclude = some ts →
      lookupHeader (ops.AsHeaders H).headers H.HEADER_TRIGGER_PRE_INCLUDE
        = some (commaSeparated ts)) ∧
    (∀ ops : CreateDocumentOptions, ops.PostTriggersInclude = some ts →
      lookupHeader (ops.AsHeaders H).headers H.HEADER_TRIGGER_POST_INCLUDE
        = some (commaSeparated ts)) ∧
    (∀ ops : ReplaceDocumentOptions, ops.PreTriggersInclude = some ts →
      lookupHeader (ops.AsHeaders H).headers H.HEADER_TRIGGER_PRE_INCLUDE
        = some (commaSeparated ts)) ∧
    (∀ ops : ReplaceDocumentOptions, ops.PostTriggersInclude = some ts →
      lookupHeader (ops.AsHeaders H).headers H.HEADER_TRIGGER_POST_INCLUDE
        = some (commaSeparated ts)) ∧
    (∀ ops : DeleteDocumentOptions, ops.PreTriggersInclude = some ts →
      lookupHeader (ops.AsHeaders H).headers H.HEADER_TRIGGER_PRE_INCLUDE
        = some (commaSeparated ts)) ∧
    (∀ ops : DeleteDocumentOptions, ops.PostTriggersInclude = some ts →
      lookupHeader (ops.AsHeaders H).headers H.HEADER_TRIGGER_POST_INCLUDE
        = some (commaSeparated ts)) := by
  have hr := hd.reverse
  simp [HeaderNames.Distinct, HeaderNames.all] at hd hr
  have hlen : 0 < ts.length := List.length_pos.mpr hts
  refine ⟨?_, ?_, ?_, ?_, ?_, ?_⟩
  · intro ops h
    rw [create_lookup_asHeaders]
    simp [h, hd, hr, StringSlice.len, StringSlice.elems, hlen, Join_eq_commaSeparated]
  · intro ops h
    rw [create_lookup_asHeaders]
    simp [h, hd, hr, StringSlice.len, StringSlice.elems, hlen, Join_eq_commaSeparated]
  · intro ops h
    rw [replace_lookup_asHeaders]
    simp [h, hd, hr, StringSlice.len, StringSlice.elems, hlen, Join_eq_commaSeparated]
  · intro ops h
    rw [replace_lookup_asHeaders]
    simp [h, hd, hr, StringSlice.len, StringSlice.elems, hlen, Join_eq_commaSeparated]
  · intro ops h
    rw [delete_lookup_asHeaders]
    simp [h, hd, hr, StringSlice.len, StringSlice.elems, hlen, Join_eq_commaSeparated]
  · intro ops h
    rw [delete_lookup_asHeaders]
    simp [h, hd, hr, StringSlice.len, StringSlice.elems, hlen, Join_eq_commaSeparated]

/-- Witness of C8: the pre-trigger list a, b of a Create option set gives the
header value "a,b". -/
theorem trigger_headers_comma_joined_witness :
    specHeaderNames.Distinct ∧ ["a", "b"] ≠ [] ∧ commaSeparated ["a", "b"] = "a,b" ∧
    lookupHeader (CreateDocumentOptions.AsHeaders specHeaderNames
        { PreTriggersInclude := some ["a", "b"] }).headers "pre-trigger-include"
      = some (commaSeparated ["a", "b"]) :=
  ⟨by decide, by decide, by decide,
    (trigger_headers_comma_joined specHeaderNames (by decide) ["a", "b"] (by decide)).1
      { PreTriggersInclude := some ["a", "b"] } rfl⟩

/-! ## Conditional replace -/

/-- C9: the Replace translation holds `HEADER_IF_MATCH` exactly when `IfMatch`
is not the empty string, and the value is then the `IfMatch` string
unchanged. -/
theorem replace_ifMatch_header (H : HeaderNames) (hd : H.Distinct)
    (ops : ReplaceDocumentOptions) :
    (lookupHeader (ops.AsHeaders H).headers H.HEADER_IF_MATCH ≠ none ↔
      ops.IfMatch ≠ "") ∧
    lookupHeader (ops.AsHeaders H).headers H.HEADER_IF_MATCH =
      (if ops.IfMatch = "" then none else some ops.IfMatch) := by
  have hr := hd.reverse
  simp [HeaderNames.Distinct, HeaderNames.all] at hd hr
  rw [replace_lookup_asHeaders]
  by_cases h : ops.IfMatch = ""
  · simp [h, hd, hr]
  · simp [h, hd, hr]

/-- Witness of C9: `IfMatch` "etag-123" gives the header value "etag-123",
and the empty `IfMatch` gives no header. -/
theorem replace_ifMatch_header_witness :
    specHeaderNames.Distinct ∧
    lookupHeader (ReplaceDocumentOptions.AsHeaders specHeaderNames
        { IfMatch := "etag-123" }).headers "if-match" = some "etag-123" ∧
    lookupHeader (ReplaceDocumentOptions.AsHeaders specHeaderNames
        { PartitionKeyValue := "p", IfMatch := "" }).headers "if-match" = none :=
  ⟨by decide,
    (replace_ifMatch_header specHeaderNames (by decide) { IfMatch := "etag-123" }).2,
    (replace_ifMatch_header specHeaderNames (by decide)
      { PartitionKeyValue := "p", IfMatch := "" }).2⟩

/-! ## Which translations can fail -/

/-- C10: the Create, Get, Replace and Delete translations return a nil error
and a non-nil mapping for every input; the Query translation is the only one
that can return an error, and it does for some input. -/
theorem asHeaders_infallible_except_query (H : HeaderNames) :
    (∀ ops : CreateDocumentOptions,
      (ops.AsHeaders H).err = none ∧ (ops.AsHeaders H).headers ≠ none) ∧
    (∀ ops : GetDocumentOptions,
      (ops.AsHeaders H).err = none ∧ (ops.AsHeaders H).headers ≠ none) ∧
    (∀ ops : ReplaceDocumentOptions,
      (ops.AsHeaders H).err = none ∧ (ops.AsHeaders H).headers ≠ none) ∧
    (∀ ops : DeleteDocumentOptions,
      (ops.AsHeaders H).err = none ∧ (ops.AsHeaders H).headers ≠ none) ∧
    (∃ ops : QueryDocumentsOptions, (ops.AsHeaders H).err ≠ none) := by
  refine ⟨?_, ?_, ?_, ?_, ?_⟩
  · intro ops
    simp [CreateDocumentOptions.AsHeaders]
  · intro ops
    simp [GetDocumentOptions.AsHeaders]
  · intro ops
    simp [ReplaceDocumentOptions.AsHeaders]
  · intro ops
    simp [DeleteDocumentOptions.AsHeaders]
  · refine ⟨{ ContentType := "text/plain" }, ?_⟩
    have hc : ("text/plain" : String) ≠ QUERY_CONTENT_TYPE := by decide
    simp [QueryDocumentsOptions.AsHeaders, hc]

/-! ## Dispatchers: operations that are not implemented -/

/-- C11: whatever the client, context, link, document, options and output
target, `UpsertDocument` and `ListDocument` return `ErrorNotImplemented` and
make no transport call. -/
theorem notImplemented_no_transport {Ctx V Q R O : Type} (c : Client Ctx V Q R)
    (ctx : Ctx) (link : String) (doc out : V) (ops : Option O) :
    (UpsertDocument c ctx link doc ops).outcome
      = Outcome.returned (some Error.ErrorNotImplemented) ∧
    (UpsertDocument c ctx link doc ops).calls = [] ∧
    (ListDocument c ctx link ops out).outcome
      = Outcome.returned (some Error.ErrorNotImplemented) ∧
    (ListDocument c ctx link ops out).calls = [] :=
  ⟨rfl, rfl, rfl, rfl⟩

/-! ## Dispatchers: the content-type check of a query -/

/-- C12: `QueryDocuments` called with a non-nil option set whose `ContentType`
differs from `QUERY_CONTENT_TYPE` returns a nil response with
`ErrWrongQueryContentType`, and makes no transport call. -/
theorem queryDocuments_wrongContentType {Ctx V Q R : Type} (H : HeaderNames)
    (L : LinkBuilders) (c : Client Ctx V Q R) (ctx : Ctx) (dbName collName : String)
    (qry : Q) (docs : V) (o : QueryDocumentsOptions)
    (hct : o.ContentType ≠ QUERY_CONTENT_TYPE) :
    QueryDocuments H L c ctx dbName collName qry docs (some o)
      = ⟨[], Outcome.returned (none, some Error.ErrWrongQueryContentType)⟩ := by
  simp [QueryDocuments, QueryDocumentsOptions.AsHeaders, hct]

/-- Witness of C12: a query with the content type "text/plain", on a transport
double that would report no error. -/
theorem queryDocuments_wrongContentType_witness :
    ("text/plain" : String) ≠ QUERY_CONTENT_TYPE ∧
    QueryDocuments specHeaderNames sampleLinks okClient () "db" "coll" "q" "docs"
        (some { IsQuery := true, ContentType := "text/plain" })
      = ⟨[], Outcome.returned (none, some Error.ErrWrongQueryContentType)⟩ :=
  ⟨by decide,
    queryDocuments_wrongContentType specHeaderNames sampleLinks okClient () "db" "coll"
      "q" "docs" { IsQuery := true, ContentType := "text/plain" } (by decide)⟩

/-! ## Dispatchers: what reaches the transport and what comes back -/

/-- The Create translation as a record: a mapping and no error. -/
theorem create_asHeaders_err (H : HeaderNames) (o : CreateDocumentOptions) :
    (o.AsHeaders H).err = none := by
  simp [CreateDocumentOptions.AsHeaders]

theorem get_asHeaders_err (H : HeaderNames) (o : GetDocumentOptions) :
    (o.AsHeaders H).err = none := by
  simp [GetDocumentOptions.AsHeaders]

theorem replace_asHeaders_err (H : HeaderNames) (o : ReplaceDocumentOptions) :
    (o.AsHeaders H).err = none := by
  simp [ReplaceDocumentOptions.AsHeaders]

theorem delete_asHeaders_err (H : HeaderNames) (o : DeleteDocumentOptions) :
    (o.AsHeaders H).err = none := by
  simp [DeleteDocumentOptions.AsHeaders]

/-- The run of `CreateDocument` on a non-nil option set. -/
theorem createDocument_some {Ctx V Q R : Type} (H : HeaderNames) (L : LinkBuilders)
    (c : Client Ctx V Q R) (ctx : Ctx) (dbName colName : String) (doc : V)
    (o : CreateDocumentOptions) :
    CreateDocument H L c ctx dbName colName doc (some o) =
      ⟨[Call.create ctx (L.createDocsLink dbName colName) doc (o.AsHeaders H).headers],
        match (c.create ctx (L.createDocsLink dbName colName) doc (o.AsHeaders H).headers).2 with
        | some e => Outcome.returned (none, some e)
        | none => Outcome.returned
            (some (c.create ctx (L.createDocsLink dbName colName) doc
              (o.AsHeaders H).headers).1, none)⟩ := by
  simp only [CreateDocument, create_asHeaders_err]
  split <;> simp_all

/-- The run of `CreateDocument` on the nil option set. -/
theorem createDocument_none {Ctx V Q R : Type} (H : HeaderNames) (L : LinkBuilders)
    (c : Client Ctx V Q R) (ctx : Ctx) (dbName colName : String) (doc : V) :
    CreateDocument H L c ctx dbName colName doc none =
      ⟨[Call.create ctx (L.createDocsLink dbName colName) doc (some [])],
        match (c.create ctx (L.createDocsLink dbName colName) doc (some [])).2 with
        | some e => Outcome.returned (none, some e)
        | none => Outcome.returned
            (some (c.create ctx (L.createDocsLink dbName colName) doc (some [])).1, none)⟩ := by
  simp only [CreateDocument]
  split <;> simp_all

/-- The run of `ReplaceDocument` on a non-nil option set. -/
theorem replaceDocument_some {Ctx V Q R : Type} (H : HeaderNames) (L : LinkBuilders)
    (c : Client Ctx V Q R) (ctx : Ctx) (dbName colName id : String) (doc : V)
    (o : ReplaceDocumentOptions) :
    ReplaceDocument H L c ctx dbName colName id doc (some o) =
      ⟨[Call.replace ctx (L.createDocLink dbName colName id) doc (o.AsHeaders H).headers],
        match (c.replace ctx (L.createDocLink dbName colName id) doc
            (o.AsHeaders H).headers).2 with
        | some e => Outcome.returned (none, some e)
        | none => Outcome.returned
            (some (c.replace ctx (L.createDocLink dbName colName id) doc
              (o.AsHeaders H).headers).1, none)⟩ := by
  simp only [ReplaceDocument, replace_asHeaders_err]
  split <;> simp_all

/-- The run of `ReplaceDocument` on the nil option set. -/
theorem replaceDocument_none {Ctx V Q R : Type} (H : HeaderNames) (L : LinkBuilders)
    (c : Client Ctx V Q R) (ctx : Ctx) (dbName colName id : String) (doc : V) :
    ReplaceDocument H L c ctx dbName colName id doc none =
      ⟨[Call.replace ctx (L.createDocLink dbName colName id) doc (some [])],
        match (c.replace ctx (L.createDocLink dbName colName id) doc (some [])).2 with
        | some e => Outcome.returned (none, some e)
        | none => Outcome.returned
            (some (c.replace ctx (L.createDocLink dbName colName id) doc (some [])).1,
              none)⟩ := by
  simp only [ReplaceDocument]
  split <;> simp_all

/-- The run of `GetDocument` on a non-nil option set. -/
theorem getDocument_some {Ctx V Q R : Type} (H : HeaderNames) (L : LinkBuilders)
    (c : Client Ctx V Q R) (ctx : Ctx) (dbName colName id : String)
    (o : GetDocumentOptions) (out : V) :
    GetDocument H L c ctx dbName colName id (some o) out =
      ⟨[Call.get ctx (L.createDocLink dbName colName id) out (o.AsHeaders H).headers],
        Outcome.returned
          (c.get ctx (L.createDocLink dbName colName id) out (o.AsHeaders H).headers)⟩ := by
  simp only [GetDocument, get_asHeaders_err]
  split <;> simp_all

/-- The run of `DeleteDocument` on a non-nil option set. -/
theorem deleteDocument_some {Ctx V Q R : Type} (H : HeaderNames) (L : LinkBuilders)
    (c : Client Ctx V Q R) (ctx : Ctx) (dbName colName id : String)
    (o : DeleteDocumentOptions) :
    DeleteDocument H L c ctx dbName colName id (some o) =
      ⟨[Call.delete ctx (L.createDocLink dbName colName id) (o.AsHeaders H).headers],
        Outcome.returned
          (c.delete ctx (L.createDocLink dbName colName id) (o.AsHeaders H).headers)⟩ := by
  simp only [DeleteDocument, delete_asHeaders_err]
  split <;> simp_all

/-- The run of `QueryDocuments` on a non-nil option set with the accepted
content type. -/
theorem queryDocuments_some {Ctx V Q R : Type} (H : HeaderNames) (L : LinkBuilders)
    (c : Client Ctx V Q R) (ctx : Ctx) (dbName collName : String) (qry : Q) (docs : V)
    (o : QueryDocumentsOptions) (hok : (o.AsHeaders H).err = none) :
    QueryDocuments H L c ctx dbName collName qry docs (some o) =
      ⟨[Call.query ctx (L.createDocsLink dbName collName) qry { Documents := docs }
          (o.AsHeaders H).headers],
        match (c.query ctx (L.createDocsLink dbName collName) qry { Documents := docs }
            (o.AsHeaders H).headers).2 with
        | some e => Outcome.returned (none, some e)
        | none => Outcome.returned
            (some (c.query ctx (L.createDocsLink dbName collName) qry { Documents := docs }
              (o.AsHeaders H).headers).1, none)⟩ := by
  simp only [QueryDocuments, hok]
  split <;> simp_all

/-- C13: for each dispatcher called with a non-nil option set whose
translation succeeds, an error `e` returned by the transport primitive is
returned as it is, with a nil result for Create, Replace and Query; and when
the transport primitive returns no error, the dispatcher returns no error
(and, for Create, Replace and Query, the result the transport left). -/
theorem transport_error_passthrough {Ctx V Q R : Type} (H : HeaderNames)
    (L : LinkBuilders) (c : Client Ctx V Q R) (ctx : Ctx) (dbName colName id : String)
    (doc out docs : V) (qry : Q) :
    (∀ o : CreateDocumentOptions, (o.AsHeaders H).err = none →
      (∀ e, (c.create ctx (L.createDocsLink dbName colName) doc (o.AsHeaders H).headers).2
          = some e →
        (CreateDocument H L c ctx dbName colName doc (some o)).outcome
          = Outcome.returned (none, some e)) ∧
      ((c.create ctx (L.createDocsLink dbName colName) doc (o.AsHeaders H).headers).2
          = none →
        (CreateDocument H L c ctx dbName colName doc (some o)).outcome
          = Outcome.returned
              (some (c.create ctx (L.createDocsLink dbName colName) doc
                (o.AsHeaders H).headers).1, none))) ∧
    (∀ o : GetDocumentOptions, (o.AsHeaders H).err = none →
      (∀ e, c.get ctx (L.createDocLink dbName colName id) out (o.AsHeaders H).headers
          = some e →
        (GetDocument H L c ctx dbName colName id (some o) out).outcome
          = Outcome.returned (some e)) ∧
      (c.get ctx (L.createDocLink dbName colName id) out (o.AsHeaders H).headers = none →
        (GetDocument H L c ctx dbName colName id (some o) out).outcome
          = Outcome.returned none)) ∧
    (∀ o : ReplaceDocumentOptions, (o.AsHeaders H).err = none →
      (∀ e, (c.replace ctx (L.createDocLink dbName colName id) doc
          (o.AsHeaders H).headers).2 = some e →
        (ReplaceDocument H L c ctx dbName colName id doc (some o)).outcome
          = Outcome.returned (none, some e)) ∧
      ((c.replace ctx (L.createDocLink dbName colName id) doc (o.AsHeaders H).headers).2
          = none →
        (ReplaceDocument H L c ctx dbName colName id doc (some o)).outcome
          = Outcome.returned
              (some (c.replace ctx (L.createDocLink dbName colName id) doc
                (o.AsHeaders H).headers).1, none))) ∧
    (∀ o : DeleteDocumentOptions, (o.AsHeaders H).err = none →
      (∀ e, c.delete ctx (L.createDocLink dbName colName id) (o.AsHeaders H).headers
          = some e →
        (DeleteDocument H L c ctx dbName colName id (some o)).outcome
          = Outcome.returned (some e)) ∧
      (c.delete ctx (L.createDocLink dbName colName id) (o.AsHeaders H).headers = none →
        (DeleteDocument H L c ctx dbName colName id (some o)).outcome
          = Outcome.returned none)) ∧
    (∀ o : QueryDocumentsOptions, (o.AsHeaders H).err = none →
      (∀ e, (c.query ctx (L.createDocsLink dbName colName) qry { Documents := docs }
          (o.AsHeaders H).headers).2 = some e →
        (QueryDocuments H L c ctx dbName colName qry docs (some o)).outcome
          = Outcome.returned (none, some e)) ∧
      ((c.query ctx (L.createDocsLink dbName colName) qry { Documents := docs }
          (o.AsHeaders H).headers).2 = none →
        (QueryDocuments H L c ctx dbName colName qry docs (some o)).outcome
          = Outcome.returned
              (some (c.query ctx (L.createDocsLink dbName colName) qry { Documents := docs }
                (o.AsHeaders H).headers).1, none))) := by
  refine ⟨?_, ?_, ?_, ?_, ?_⟩
  · intro o _
    rw [createDocument_some]
    exact ⟨fun e he => by simp [he], fun he => by simp [he]⟩
  · intro o _
    rw [getDocument_some]
    exact ⟨fun e he => by simp [he], fun he => by simp [he]⟩
  · intro o _
    rw [replaceDocument_some]
    exact ⟨fun e he => by simp [he], fun he => by simp [he]⟩
  · intro o _
    rw [deleteDocument_some]
    exact ⟨fun e he => by simp [he], fun he => by simp [he]⟩
  · intro o hok
    rw [queryDocuments_some H L c ctx dbName colName qry docs o hok]
    exact ⟨fun e he => by simp [he], fun he => by simp [he]⟩

/-- Witness of C13: on a transport double whose primitives report the error
`transport "503"`, `CreateDocument` and `QueryDocuments` return that error with
a nil result, and `GetDocument` returns it. -/
theorem transport_error_passthrough_witness :
    (CreateDocument specHeaderNames sampleLinks (failingClient (Error.transport "503")) ()
        "db" "coll" "doc" (some { IsUpsert := true })).outcome
      = Outcome.returned (none, some (Error.transport "503")) ∧
    (GetDocument specHeaderNames sampleLinks (failingClient (Error.transport "503")) ()
        "db" "coll" "id" (some {}) "out").outcome
      = Outcome.returned (some (Error.transport "503")) ∧
    (QueryDocuments specHeaderNames sampleLinks (failingClient (Error.transport "503")) ()
        "db" "coll" "q" "docs" (some DefaultQueryDocumentOptions)).outcome
      = Outcome.returned (none, some (Error.transport "503")) ∧
    (QueryDocuments specHeaderNames sampleLinks okClient ()
        "db" "coll" "q" "docs" (some DefaultQueryDocumentOptions)).outcome
      = Outcome.returned (some { Documents := "docs" }, none) :=
  have h := transport_error_passthrough specHeaderNames sampleLinks
    (failingClient (Error.transport "503")) () "db" "coll" "id" "doc" "out" "docs" "q"
  have hk := transport_error_passthrough specHeaderNames sampleLinks
    okClient () "db" "coll" "id" "doc" "out" "docs" "q"
  ⟨(h.1 { IsUpsert := true } rfl).1 _ rfl,
    (h.2.1 {} rfl).1 _ rfl,
    (h.2.2.2.2 DefaultQueryDocumentOptions (by decide)).1 _ rfl,
    (hk.2.2.2.2 DefaultQueryDocumentOptions (by decide)).2 rfl⟩

/-- C14: `CreateDocument` and `ReplaceDocument` make exactly one transport
call, to `create` respectively `replace`, with the caller's document and with
the empty mapping when `ops` is nil, the mapping returned by `ops.AsHeaders()`
when it is not. -/
theorem create_replace_call_once {Ctx V Q R : Type} (H : HeaderNames)
    (L : LinkBuilders) (c : Client Ctx V Q R) (ctx : Ctx) (dbName colName id : String)
    (doc : V) :
    (CreateDocument H L c ctx dbName colName doc none).calls
      = [Call.create ctx (L.createDocsLink dbName colName) doc (some [])] ∧
    (∀ o : CreateDocumentOptions,
      (CreateDocument H L c ctx dbName colName doc (some o)).calls
        = [Call.create ctx (L.createDocsLink dbName colName) doc (o.AsHeaders H).headers]) ∧
    (ReplaceDocument H L c ctx dbName colName id doc none).calls
      = [Call.replace ctx (L.createDocLink dbName colName id) doc (some [])] ∧
    (∀ o : ReplaceDocumentOptions,
      (ReplaceDocument H L c ctx dbName colName id doc (some o)).calls
        = [Call.replace ctx (L.createDocLink dbName colName id) doc
            (o.AsHeaders H).headers]) := by
  refine ⟨?_, ?_, ?_, ?_⟩
  · rw [createDocument_none]
  · intro o
    rw [createDocument_some]
  · rw [replaceDocument_none]
  · intro o
    rw [replaceDocument_some]

/-! ## Dispatchers and the nil option set -/

/-- C15 fails on the code: `QueryDocuments` called with the nil option set
dereferences it in `ops.AsHeaders()`; the run faults, it does not return
`ErrWrongQueryContentType` (it makes no transport call either). -/
theorem queryDocuments_nil_faults {Ctx V Q R : Type} (H : HeaderNames)
    (L : LinkBuilders) (c : Client Ctx V Q R) (ctx : Ctx) (dbName collName : String)
    (qry : Q) (docs : V) :
    QueryDocuments H L c ctx dbName collName qry docs none = ⟨[], Outcome.panic⟩ ∧
    (QueryDocuments H L c ctx dbName collName qry docs none).outcome
      ≠ Outcome.returned (none, some Error.ErrWrongQueryContentType) := by
  constructor
  · rfl
  · simp [QueryDocuments]

/-- C16 fails on the code for `DeleteDocument`: called with the nil option set
it dereferences it in `ops.AsHeaders()` and faults, without a transport call;
`CreateDocument` and `ReplaceDocument` test `ops != nil`, do not fault and make
their transport call with the empty mapping. -/
theorem deleteDocument_nil_faults {Ctx V Q R : Type} (H : HeaderNames)
    (L : LinkBuilders) (c : Client Ctx V Q R) (ctx : Ctx) (dbName colName id : String)
    (doc : V) :
    DeleteDocument H L c ctx dbName colName id none = ⟨[], Outcome.panic⟩ ∧
    (CreateDocument H L c ctx dbName colName doc none).outcome ≠ Outcome.panic ∧
    (CreateDocument H L c ctx dbName colName doc none).calls
      = [Call.create ctx (L.createDocsLink dbName colName) doc (some [])] ∧
    (ReplaceDocument H L c ctx dbName colName id doc none).outcome ≠ Outcome.panic ∧
    (ReplaceDocument H L c ctx dbName colName id doc none).calls
      = [Call.replace ctx (L.createDocLink dbName colName id) doc (some [])] := by
  refine ⟨rfl, ?_, ?_, ?_, ?_⟩
  · rw [createDocument_none]
    dsimp only
    split <;> simp
  · rw [createDocument_none]
  · rw [replaceDocument_none]
    dsimp only
    split <;> simp
  · rw [replaceDocument_none]

/-! ## Dispatchers: the path passed to the transport -/

/-- C17: every transport call made by `CreateDocument` and `QueryDocuments` is
addressed to `createDocsLink(dbName, colName)`, and every transport call made
by `GetDocument`, `ReplaceDocument` and `DeleteDocument` to
`createDocLink(dbName, colName, id)`. -/
theorem dispatcher_links {Ctx V Q R : Type} (H : HeaderNames) (L : LinkBuilders)
    (c : Client Ctx V Q R) (ctx : Ctx) (dbName colName id : String) (doc out docs : V)
    (qry : Q) :
    (∀ ops, ∀ call ∈ (CreateDocument H L c ctx dbName colName doc ops).calls,
      call.link = L.createDocsLink dbName colName) ∧
    (∀ ops, ∀ call ∈ (QueryDocuments H L c ctx dbName colName qry docs ops).calls,
      call.link = L.createDocsLink dbName colName) ∧
    (∀ ops, ∀ call ∈ (GetDocument H L c ctx dbName colName id ops out).calls,
      call.link = L.createDocLink dbName colName id) ∧
    (∀ ops, ∀ call ∈ (ReplaceDocument H L c ctx dbName colName id doc ops).calls,
      call.link = L.createDocLink dbName colName id) ∧
    (∀ ops, ∀ call ∈ (DeleteDocument H L c ctx dbName colName id ops).calls,
      call.link = L.createDocLink dbName colName id) := by
  refine ⟨?_, ?_, ?_, ?_, ?_⟩
  · intro ops call hc
    cases ops with
    | none => rw [createDocument_none] at hc; simp at hc; subst hc; rfl
    | some o => rw [createDocument_some] at hc; simp at hc; subst hc; rfl
  · intro ops call hc
    cases ops with
    | none => simp [QueryDocuments] at hc
    | some o =>
      cases hok : (o.AsHeaders H).err with
      | none =>
        rw [queryDocuments_some H L c ctx dbName colName qry docs o hok] at hc
        simp at hc; subst hc; rfl
      | some e => simp [QueryDocuments, hok] at hc
  · intro ops call hc
    cases ops with
    | none => simp [GetDocument] at hc
    | some o => rw [getDocument_some] at hc; simp at hc; subst hc; rfl
  · intro ops call hc
    cases ops with
    | none => rw [replaceDocument_none] at hc; simp at hc; subst hc; rfl
    | some o => rw [replaceDocument_some] at hc; simp at hc; subst hc; rfl
  · intro ops call hc
    cases ops with
    | none => simp [DeleteDocument] at hc
    | some o => rw [deleteDocument_some] at hc; simp at hc; subst hc; rfl

/-- Witness of C17 on concrete link builders: the calls exist and carry the
database, collection and document names in that order. -/
theorem dispatcher_links_witness :
    (CreateDocument specHeaderNames sampleLinks okClient () "db" "coll" "doc" none).calls
      = [Call.create () "dbs/db/colls/coll/docs" "doc" (some [])] ∧
    (GetDocument specHeaderNames sampleLinks okClient () "db" "coll" "id" (some {})
        "out").calls
      = [Call.get () "dbs/db/colls/coll/docs/id" "out" (some [("if-none-match", "false")])] ∧
    (∀ call ∈ (DeleteDocument specHeaderNames sampleLinks okClient () "db" "coll" "id"
        (some {})).calls, call.link = "dbs/db/colls/coll/docs/id") :=
  ⟨by decide, by decide,
    (dispatcher_links specHeaderNames sampleLinks okClient () "db" "coll" "id" "doc" "out"
      "docs" "q").2.2.2.2 (some {})⟩

/-! ## Replace and Delete against Create -/

/-- C18: with pairwise distinct header names, the mapping of the Replace
options with fields `p`, `d`, `pre`, `post` and an empty `IfMatch` is the
mapping of the Create options with the same four fields, whatever `IsUpsert`,
with the `HEADER_UPSERT` entry removed (it holds nothing under `HEADER_UPSERT`
and agrees with the Create mapping under every other key); and the Delete
options with `p`, `pre`, `post` translate as the Replace options with the same
three fields, an empty `IndexingDirective` and an empty `IfMatch`. -/
theorem replace_delete_same_as_create (H : HeaderNames) (hd : H.Distinct)
    (p d : String) (pre post : StringSlice) (b : Bool) :
    (ReplaceDocumentOptions.AsHeaders H
        { PartitionKeyValue := p, IndexingDirective := d, PreTriggersInclude := pre,
          PostTriggersInclude := post, IfMatch := "" }).headers
      = (CreateDocumentOptions.AsHeaders H
          { PartitionKeyValue := p, IsUpsert := b, IndexingDirective := d,
            PreTriggersInclude := pre, PostTriggersInclude := post }).headers.map
          (fun m => HeaderMap.erase m H.HEADER_UPSERT) ∧
    lookupHeader (ReplaceDocumentOptions.AsHeaders H
        { PartitionKeyValue := p, IndexingDirective := d, PreTriggersInclude := pre,
          PostTriggersInclude := post, IfMatch := "" }).headers H.HEADER_UPSERT = none ∧
    (∀ k, k ≠ H.HEADER_UPSERT →
      lookupHeader (ReplaceDocumentOptions.AsHeaders H
        { PartitionKeyValue := p, IndexingDirective := d, PreTriggersInclude := pre,
          PostTriggersInclude := post, IfMatch := "" }).headers k
      = lookupHeader (CreateDocumentOptions.AsHeaders H
          { PartitionKeyValue := p, IsUpsert := b, IndexingDirective := d,
            PreTriggersInclude := pre, PostTriggersInclude := post }).headers k) ∧
    DeleteDocumentOptions.AsHeaders H
        { PartitionKeyValue := p, PreTriggersInclude := pre, PostTriggersInclude := post }
      = ReplaceDocumentOptions.AsHeaders H
          { PartitionKeyValue := p, IndexingDirective := "", PreTriggersInclude := pre,
            PostTriggersInclude := post, IfMatch := "" } := by
  have hr := hd.reverse
  simp [HeaderNames.Distinct, HeaderNames.all] at hd hr
  refine ⟨?_, ?_, ?_, ?_⟩
  · by_cases hp : p = "" <;> by_cases hdir : d = "" <;>
      by_cases h1 : (pre ≠ none ∧ pre.len > 0) <;>
      by_cases h2 : (post ≠ none ∧ post.len > 0) <;>
      simp [CreateDocumentOptions.AsHeaders, ReplaceDocumentOptions.AsHeaders,
        HeaderMap.set, HeaderMap.erase, hp, hdir, h1, h2, hd, hr]
  · rw [replace_lookup_asHeaders]
    simp [hd, hr]
  · intro k hk
    rw [replace_lookup_asHeaders, create_lookup_asHeaders]
    simp [Ne.symm hk]
  · simp [DeleteDocumentOptions.AsHeaders, ReplaceDocumentOptions.AsHeaders]

/-- Witness of C18 on the header names of the specification. -/
theorem replace_delete_same_as_create_witness :
    specHeaderNames.Distinct ∧
    (ReplaceDocumentOptions.AsHeaders specHeaderNames
        { PartitionKeyValue := "p", IndexingDirective := "include",
          PreTriggersInclude := some ["a", "b"], PostTriggersInclude := none,
          IfMatch := "" }).headers
      = some [("partition-key", "[\"p\"]"), ("indexing-directive", "include"),
          ("pre-trigger-include", "a,b")] ∧
    (ReplaceDocumentOptions.AsHeaders specHeaderNames
        { PartitionKeyValue := "p", IndexingDirective := "include",
          PreTriggersInclude := some ["a", "b"], PostTriggersInclude := none,
          IfMatch := "" }).headers
      = (CreateDocumentOptions.AsHeaders specHeaderNames
          { PartitionKeyValue := "p", IsUpsert := true, IndexingDirective := "include",
            PreTriggersInclude := some ["a", "b"],
            PostTriggersInclude := none }).headers.map
          (fun m => HeaderMap.erase m specHeaderNames.HEADER_UPSERT) :=
  ⟨by decide, by decide,
    (replace_delete_same_as_create specHeaderNames (by decide) "p" "include"
      (some ["a", "b"]) none true).1⟩

/-! ## Empty header values -/

theorem append_comma_ne_empty (a b : String) : a ++ "," ++ b ≠ "" := by
  intro h
  have hl := congrArg String.length h
  simp [String.length_append] at hl
  exact absurd hl.1.2 (by decide)

theorem SprintfPartitionKey_ne_empty (s : String) : SprintfPartitionKey s ≠ "" := by
  intro h
  have hl := congrArg String.length h
  simp [SprintfPartitionKey, String.length_append] at hl
  exact absurd hl.2 (by decide)

theorem FormatBool_ne_empty (b : Bool) : FormatBool b ≠ "" := by
  cases b <;> decide

/-- A joined trigger list is the empty string only for the list without
names and for the list of one empty name. -/
theorem Join_guard_ne_empty (s : StringSlice) (hg : s ≠ none ∧ s.len > 0)
    (hs : s ≠ some [""]) : Join s.elems "," ≠ "" := by
  rcases s with _ | ts
  · exact absurd rfl hg.1
  · rcases ts with _ | ⟨t, _ | ⟨t', rest⟩⟩
    · simp [StringSlice.len] at hg
    · intro h
      apply hs
      simp only [StringSlice.elems, Join] at h
      rw [h]
    · simp only [StringSlice.elems]
      rw [Join_cons_cons]
      exact append_comma_ne_empty _ _

/-- C19 fails as stated: the Create options whose pre-trigger list is the one
empty name translate without error and store the empty string under
`HEADER_TRIGGER_PRE_INCLUDE`. -/
theorem create_emptyTriggerName_empty_header :
    (CreateDocumentOptions.AsHeaders specHeaderNames
        { PreTriggersInclude := some [""] }).err = none ∧
    lookupHeader (CreateDocumentOptions.AsHeaders specHeaderNames
        { PreTriggersInclude := some [""] }).headers
      specHeaderNames.HEADER_TRIGGER_PRE_INCLUDE = some "" := by
  decide

/-- C19 as amended: in every translation, when no trigger list is the list of
one empty name, every entry of the returned mapping has a non-empty value. -/
theorem header_values_nonempty (H : HeaderNames) :
    (∀ ops : CreateDocumentOptions, ops.PreTriggersInclude ≠ some [""] →
      ops.PostTriggersInclude ≠ some [""] →
      ∀ k v, lookupHeader (ops.AsHeaders H).headers k = some v → v ≠ "") ∧
    (∀ ops : GetDocumentOptions,
      ∀ k v, lookupHeader (ops.AsHeaders H).headers k = some v → v ≠ "") ∧
    (∀ ops : ReplaceDocumentOptions, ops.PreTriggersInclude ≠ some [""] →
      ops.PostTriggersInclude ≠ some [""] →
      ∀ k v, lookupHeader (ops.AsHeaders H).headers k = some v → v ≠ "") ∧
    (∀ ops : DeleteDocumentOptions, ops.PreTriggersInclude ≠ some [""] →
      ops.PostTriggersInclude ≠ some [""] →
      ∀ k v, lookupHeader (ops.AsHeaders H).headers k = some v → v ≠ "") ∧
    (∀ ops : QueryDocumentsOptions,
      ∀ k v, lookupHeader (ops.AsHeaders H).headers k = some v → v ≠ "") := by
  refine ⟨?_, ?_, ?_, ?_, ?_⟩
  · intro ops hpre hpost k v h
    rw [create_lookup_asHeaders] at h
    split_ifs at h with h1 h2 h3 h4 h5 <;> simp only [Option.some.injEq] at h <;> subst h
    · exact Join_guard_ne_empty _ h1.1 hpost
    · exact Join_guard_ne_empty _ h2.1 hpre
    · exact h3.1
    · exact FormatBool_ne_empty _
    · exact SprintfPartitionKey_ne_empty _
  · intro ops k v h
    rw [get_lookup_asHeaders] at h
    split_ifs at h with h1 h2 h3 h4 <;> simp only [Option.some.injEq] at h <;> subst h
    · exact h1.1
    · exact h2.1
    · exact SprintfPartitionKey_ne_empty _
    · exact FormatBool_ne_empty _
  · intro ops hpre hpost k v h
    rw [replace_lookup_asHeaders] at h
    split_ifs at h with h1 h2 h3 h4 h5 <;> simp only [Option.some.injEq] at h <;> subst h
    · exact h1.1
    · exact Join_guard_ne_empty _ h2.1 hpost
    · exact Join_guard_ne_empty _ h3.1 hpre
    · exact h4.1
    · exact SprintfPartitionKey_ne_empty _
  · intro ops hpre hpost k v h
    rw [delete_lookup_asHeaders] at h
    split_ifs at h with h1 h2 h3 <;> simp only [Option.some.injEq] at h <;> subst h
    · exact Join_guard_ne_empty _ h1.1 hpost
    · exact Join_guard_ne_empty _ h2.1 hpre
    · exact SprintfPartitionKey_ne_empty _
  · intro ops k v h
    rw [query_lookup_asHeaders] at h
    split_ifs at h with h1 h2 h3 h4 <;> simp only [Option.some.injEq] at h <;> subst h
    · have hq : ops.ContentType = QUERY_CONTENT_TYPE := not_not.mp h1
      rw [hq]
      decide
    · exact FormatBool_ne_empty _
    · exact SprintfPartitionKey_ne_empty _

/-- Witness of the amended C19: a Create value whose pre-trigger list holds two
empty names stores a comma, not the empty string. -/
theorem header_values_nonempty_witness :
    (some ["", ""] : StringSlice) ≠ some [""] ∧ (none : StringSlice) ≠ some [""] ∧
    lookupHeader (CreateDocumentOptions.AsHeaders specHeaderNames
        { PreTriggersInclude := some ["", ""] }).headers "pre-trigger-include" = some "," ∧
    ("," : String) ≠ "" :=
  ⟨by decide, by decide, by decide,
    (header_values_nonempty specHeaderNames).1 { PreTriggersInclude := some ["", ""] }
      (by decide) (by decide) "pre-trigger-include" "," (by decide)⟩

/-! ## Fields the query translation does not read -/

/-- C20: two query option values that agree on `PartitionKeyValue`, `IsQuery`
and `ContentType` translate to the same result, mapping and error, whatever
their `MaxItemCount`, `Continuation`, `EnableCrossPartition`,
`ConsistencyLevel` and `SessionToken`. -/
theorem queryAsHeaders_depends_on_three_fields (H : HeaderNames)
    (o₁ o₂ : QueryDocumentsOptions)
    (hpk : o₁.PartitionKeyValue = o₂.PartitionKeyValue)
    (hq : o₁.IsQuery = o₂.IsQuery) (hct : o₁.ContentType = o₂.ContentType) :
    o₁.AsHeaders H = o₂.AsHeaders H := by
  simp only [QueryDocumentsOptions.AsHeaders, hpk, hq, hct]

/-- Witness of C20: two values that differ in the five other fields. -/
theorem queryAsHeaders_depends_on_three_fields_witness :
    QueryDocumentsOptions.AsHeaders specHeaderNames
        { PartitionKeyValue := "p", IsQuery := true, ContentType := QUERY_CONTENT_TYPE,
          MaxItemCount := 10, Continuation := "token", EnableCrossPartition := true,
          ConsistencyLevel := "Strong", SessionToken := "s" }
      = QueryDocumentsOptions.AsHeaders specHeaderNames
        { PartitionKeyValue := "p", IsQuery := true, ContentType := QUERY_CONTENT_TYPE } ∧
    QueryDocumentsOptions.AsHeaders specHeaderNames
        { PartitionKeyValue := "p", IsQuery := true, ContentType := QUERY_CONTENT_TYPE,
          MaxItemCount := 10, Continuation := "token", EnableCrossPartition := true,
          ConsistencyLevel := "Strong", SessionToken := "s" }
      = ⟨some [("partition-key", "[\"p\"]"), ("is-query", "true"),
          ("content-type", "application/query+json")], none⟩ :=
  ⟨queryAsHeaders_depends_on_three_fields specHeaderNames _ _ rfl rfl rfl, by decide⟩

end Cosmosdb
